import Mathlib

/-!
Verification development for the rule-evaluation core of the
`financial_report_scraper` repository: a shallow embedding of
`src/analyzers/framework_engine.py` (scoring engine) and
`src/analyzers/screening_engine.py` (screening engine), followed by
theorems settling the frozen claims about them.

Conventions of the embedding:
* Python numbers (int/float collapsed) are modelled as `ℚ`; Python `None`,
  strings and booleans get their own constructors of `PyVal`.
* A Python `dict` of metrics is an association list `List (String × PyVal)`;
  `dict.get(k)` is `dictGet` (absent key ↦ `PyVal.none`), `dict.get(k, d)`
  is `dictGetD`.
* Operations that can raise in Python return `Except String α`; an
  uncaught exception propagating out of a method is an `Except.error`.
  A `try/except` block is an explicit `match` on the `Except` value.
* Python float formatting (`f"{v:.1%}"` etc.) raises `ValueError` on a
  string argument; for numeric arguments the embedding renders the number
  with `toString` — the exact digit string is irrelevant to every claim,
  only the raising behaviour and the fixed sentinel strings matter.
* The two genuinely transcendental float operations of the source
  (`x ** (1/years)` in the CAGR checks and `statistics.stdev`) have no
  exact rational counterpart, so the screening engine is parametric in a
  `FloatOps` record providing them.  A negative base to a fractional
  power produces a `complex` in Python whose subsequent ordered
  comparison raises `TypeError`; the embedding raises at the power.
-/

/-- Model of a Python runtime value as stored in a metrics dict or a rule
threshold: a number (int/float collapsed into `ℚ`), `None`, a string, or a
boolean. -/
inductive PyVal where
  | none : PyVal
  | num (q : ℚ) : PyVal
  | str (s : String) : PyVal
  | bool (b : Bool) : PyVal
deriving DecidableEq

/-- Numeric view of a Python value: Python treats `bool` as an `int`
(`True == 1`), so booleans coerce in arithmetic and comparisons. -/
def PyVal.asNum : PyVal → Option ℚ
  | PyVal.num q => some q
  | PyVal.bool b => some (if b then 1 else 0)
  | _ => Option.none

/-- Python truthiness (`bool(x)`). -/
def truthy : PyVal → Bool
  | PyVal.none => false
  | PyVal.num q => decide (q ≠ 0)
  | PyVal.str s => decide (s ≠ "")
  | PyVal.bool b => b

/-- Python `==`: never raises; numbers (and booleans) compare by value,
strings by content, `None` only equals `None`, mixed types are unequal. -/
def pyEqb (a b : PyVal) : Bool :=
  match a.asNum, b.asNum with
  | some x, some y => decide (x = y)
  | _, _ =>
    match a, b with
    | PyVal.str s, PyVal.str t => decide (s = t)
    | PyVal.none, PyVal.none => true
    | _, _ => false

/-- Python `<`: ordered comparison; numbers with numbers (booleans coerce),
strings with strings; any other combination raises `TypeError`. -/
def pyLt (a b : PyVal) : Except String Bool :=
  match a.asNum, b.asNum with
  | some x, some y => Except.ok (decide (x < y))
  | _, _ =>
    match a, b with
    | PyVal.str s, PyVal.str t => Except.ok (decide (s < t))
    | _, _ => Except.error "TypeError: unorderable types"

/-- Python `<=` (same type discipline as `pyLt`). -/
def pyLe (a b : PyVal) : Except String Bool :=
  match a.asNum, b.asNum with
  | some x, some y => Except.ok (decide (x ≤ y))
  | _, _ =>
    match a, b with
    | PyVal.str s, PyVal.str t => Except.ok (decide (s ≤ t))
    | _, _ => Except.error "TypeError: unorderable types"

/-- Python `>` (same type discipline as `pyLt`). -/
def pyGt (a b : PyVal) : Except String Bool :=
  match a.asNum, b.asNum with
  | some x, some y => Except.ok (decide (x > y))
  | _, _ =>
    match a, b with
    | PyVal.str s, PyVal.str t => Except.ok (decide (s > t))
    | _, _ => Except.error "TypeError: unorderable types"

/-- Python `>=` (same type discipline as `pyLt`). -/
def pyGe (a b : PyVal) : Except String Bool :=
  match a.asNum, b.asNum with
  | some x, some y => Except.ok (decide (x ≥ y))
  | _, _ =>
    match a, b with
    | PyVal.str s, PyVal.str t => Except.ok (decide (s ≥ t))
    | _, _ => Except.error "TypeError: unorderable types"

/-- Python `+`: numeric addition or string concatenation, otherwise
`TypeError`. -/
def pyAdd (a b : PyVal) : Except String PyVal :=
  match a.asNum, b.asNum with
  | some x, some y => Except.ok (PyVal.num (x + y))
  | _, _ =>
    match a, b with
    | PyVal.str s, PyVal.str t => Except.ok (PyVal.str (s ++ t))
    | _, _ => Except.error "TypeError: +"

/-- Python `-` on numbers, otherwise `TypeError`. -/
def pySub (a b : PyVal) : Except String PyVal :=
  match a.asNum, b.asNum with
  | some x, some y => Except.ok (PyVal.num (x - y))
  | _, _ => Except.error "TypeError: -"

/-- Python `*` on numbers, otherwise `TypeError`. -/
def pyMul (a b : PyVal) : Except String PyVal :=
  match a.asNum, b.asNum with
  | some x, some y => Except.ok (PyVal.num (x * y))
  | _, _ => Except.error "TypeError: *"

/-- Python `/` on numbers: `ZeroDivisionError` on a zero divisor,
`TypeError` on non-numbers. -/
def pyDiv (a b : PyVal) : Except String PyVal :=
  match a.asNum, b.asNum with
  | some x, some y =>
    if y = 0 then Except.error "ZeroDivisionError" else Except.ok (PyVal.num (x / y))
  | _, _ => Except.error "TypeError: /"

/-- Python `str(value)` (total; exact rendering of numbers is abstracted). -/
def pyStr : PyVal → String
  | PyVal.none => "None"
  | PyVal.num q => toString q
  | PyVal.str s => s
  | PyVal.bool b => if b then "True" else "False"

/-- Helper for `strContains`: does the haystack start with the needle? -/
def startsWithChars : List Char → List Char → Bool
  | _, [] => true
  | [], _ :: _ => false
  | h :: hs, n :: ns => (h == n) && startsWithChars hs ns

/-- Helper for `strContains` on character lists. -/
def containsChars : List Char → List Char → Bool
  | [], needle => needle.isEmpty
  | h :: t, needle => startsWithChars (h :: t) needle || containsChars t needle

/-- Python substring test `needle in haystack`. -/
def strContains (haystack needle : String) : Bool :=
  containsChars haystack.toList needle.toList

/-- A metrics snapshot: one Python dict mapping metric names to values. -/
abbrev Metrics := List (String × PyVal)

/-- Python `metrics.get(name)`: `None` when the key is absent. -/
def dictGet (m : Metrics) (k : String) : PyVal :=
  match m.lookup k with
  | some v => v
  | Option.none => PyVal.none

/-- Python `metrics.get(name, default)`. -/
def dictGetD (m : Metrics) (k : String) (d : PyVal) : PyVal :=
  match m.lookup k with
  | some v => v
  | Option.none => d

/-- Abstract syntax of a rule condition string as fed to the restricted
`eval` of the source (`framework_engine._evaluate_condition` /
`_check_risk_alerts`): literals, variable references resolved in the
supplied namespace, and binary arithmetic / comparison / boolean
operators.  A chained comparison `a <= x < b` is the conjunction Python
evaluates it as. -/
inductive CondExpr where
  | lit (v : PyVal) : CondExpr
  | var (name : String) : CondExpr
  | bin (op : String) (a b : CondExpr) : CondExpr
deriving DecidableEq

/-- Apply a (non-short-circuit) binary operator to two evaluated values. -/
def applyBin (op : String) (a b : PyVal) : Except String PyVal :=
  if op == "+" then pyAdd a b
  else if op == "-" then pySub a b
  else if op == "*" then pyMul a b
  else if op == "/" then pyDiv a b
  else if op == "<" then (pyLt a b).map PyVal.bool
  else if op == "<=" then (pyLe a b).map PyVal.bool
  else if op == ">" then (pyGt a b).map PyVal.bool
  else if op == ">=" then (pyGe a b).map PyVal.bool
  else if op == "==" then Except.ok (PyVal.bool (pyEqb a b))
  else if op == "!=" then Except.ok (PyVal.bool (!pyEqb a b))
  else Except.error ("SyntaxError: unsupported operator " ++ op)

/-- Evaluate a condition expression against a namespace, as Python's
`eval(condition, {"__builtins__": {}}, namespace)` does: an unknown name
raises `NameError`, `and`/`or` short-circuit returning an operand, and
operator errors propagate. -/
def evalExpr : CondExpr → List (String × PyVal) → Except String PyVal
  | CondExpr.lit v, _ => Except.ok v
  | CondExpr.var n, ns =>
    match ns.lookup n with
    | some v => Except.ok v
    | Option.none => Except.error ("NameError: name " ++ n ++ " is not defined")
  | CondExpr.bin op a b, ns =>
    if op == "and" then
      match evalExpr a ns with
      | Except.error e => Except.error e
      | Except.ok va => if truthy va then evalExpr b ns else Except.ok va
    else if op == "or" then
      match evalExpr a ns with
      | Except.error e => Except.error e
      | Except.ok va => if truthy va then Except.ok va else evalExpr b ns
    else
      match evalExpr a ns with
      | Except.error e => Except.error e
      | Except.ok va =>
        match evalExpr b ns with
        | Except.error e => Except.error e
        | Except.ok vb => applyBin op va vb

/-- One scoring rule of `framework_engine`: either a conditional rule
`{condition, score, comment}` or a terminal `{default, comment}` whose
`default` entry is the fixed score it awards. -/
inductive Rule where
  | condRule (condition : CondExpr) (score : ℚ) (comment : String) : Rule
  | defaultRule (score : ℚ) (comment : String) : Rule
deriving DecidableEq

/-- Configuration of one scored metric (`categories[].metrics[]` of a
scoring framework).  Required dict keys are modelled as plain fields:
their absence would be a config-level `KeyError`, outside the data-level
scope of the claims.  `unit` mirrors `metric_config.get('unit', '')`. -/
structure MetricConfig where
  name : String
  display_name : String
  weight : ℚ
  rules : List Rule
  unit : String
deriving DecidableEq

/-- One scoring category: `weight` is the config-declared point budget. -/
structure ScoringCategory where
  name : String
  description : String
  weight : ℚ
  metrics : List MetricConfig
deriving DecidableEq

/-- One `recommendations[]` entry: `score_range: [lo, hi]` plus texts. -/
structure Recommendation where
  lo : ℚ
  hi : ℚ
  action : String
  reasoning : String
  risk_level : String
deriving DecidableEq

/-- One `risk_alerts[]` entry, whose condition is evaluated against the
full metrics namespace. -/
structure RiskAlert where
  condition : CondExpr
  level : String
  message : String
deriving DecidableEq

/-- A loaded scoring framework configuration (`FrameworkEngine.config`).
`risk_alerts` mirrors `config.get('risk_alerts', [])`. -/
structure ScoringConfig where
  name : String
  description : String
  categories : List ScoringCategory
  recommendations : List Recommendation
  risk_alerts : List RiskAlert
deriving DecidableEq

/-- Result record for one scored metric (`MetricScore` dataclass). -/
structure MetricScore where
  name : String
  display_name : String
  value : PyVal
  score : ℚ
  max_score : ℚ
  comment : String
  unit : String
deriving DecidableEq

/-- Result record for one scored category (`CategoryScore` dataclass). -/
structure CategoryScore where
  name : String
  description : String
  score : ℚ
  max_score : ℚ
  metrics : List MetricScore
deriving DecidableEq

/-- Overall scoring result (`AnalysisResult` dataclass). -/
structure AnalysisResult where
  framework_name : String
  framework_description : String
  total_score : ℚ
  max_score : ℚ
  category_scores : List CategoryScore
  recommendation : String
  reasoning : String
  risk_level : String
  risk_alerts : List String
deriving DecidableEq

/-- Derived property `AnalysisResult.score_percentage`:
`total_score / max_score * 100` when `max_score > 0`, else `0`. -/
def AnalysisResult.score_percentage (r : AnalysisResult) : ℚ :=
  if r.max_score > 0 then r.total_score / r.max_score * 100 else 0

/-- Derived property `AnalysisResult.grade`: the step function of
`score_percentage` from the source's if/elif chain. -/
def AnalysisResult.grade (r : AnalysisResult) : String :=
  if r.score_percentage ≥ 90 then "A+"
  else if r.score_percentage ≥ 80 then "A"
  else if r.score_percentage ≥ 70 then "B"
  else if r.score_percentage ≥ 60 then "C"
  else if r.score_percentage ≥ 50 then "D"
  else "F"

/-- `FrameworkEngine._evaluate_condition`: evaluate the condition with
`value` bound as the sole variable; `bool(result)` on success, `False` on
any exception (logged as a warning in the source). -/
def evaluate_condition (condition : CondExpr) (value : PyVal) : Bool :=
  match evalExpr condition [("value", value)] with
  | Except.ok r => truthy r
  | Except.error _ => false

/-- Rule-walking loop of `FrameworkEngine._evaluate_metric`: first
matching rule wins; a `default` rule returns its fixed score immediately;
no match at all gives `(0, "未匹配到评分规则")`. -/
def evalRules : List Rule → PyVal → ℚ × String
  | [], _ => (0, "未匹配到评分规则")
  | Rule.defaultRule s c :: _, _ => (s, c)
  | Rule.condRule cond s c :: rest, v =>
    if evaluate_condition cond v then (s, c) else evalRules rest v

/-- `FrameworkEngine._evaluate_metric`: a `None` value short-circuits to
`(0, "数据缺失")` without consulting the rules. -/
def evaluate_metric (mc : MetricConfig) (value : PyVal) : ℚ × String :=
  match value with
  | PyVal.none => (0, "数据缺失")
  | v => evalRules mc.rules v

/-- `FrameworkEngine._evaluate_category`: score every metric of the
category, summing metric scores; the category's `max_score` is the
config-declared category weight. -/
def evaluate_category (cat : ScoringCategory) (metrics : Metrics) : CategoryScore :=
  let mss := cat.metrics.map (fun mc =>
    let v := dictGet metrics mc.name
    let sc := evaluate_metric mc v
    MetricScore.mk mc.name mc.display_name v sc.1 mc.weight sc.2 mc.unit)
  CategoryScore.mk cat.name cat.description (mss.map (fun ms => ms.score)).sum
    cat.weight mss

/-- `FrameworkEngine._generate_recommendation`: first entry whose
inclusive `[lo, hi]` range contains the total score; fixed fallback
otherwise. -/
def generate_recommendation (recs : List Recommendation) (total : ℚ) :
    String × String × String :=
  match recs.find? (fun r => decide (r.lo ≤ total) && decide (total ≤ r.hi)) with
  | some r => (r.action, r.reasoning, r.risk_level)
  | Option.none => ("观察", "评分异常，建议人工审核", "未知")

/-- `FrameworkEngine._check_risk_alerts`: evaluate each alert condition
against the metrics namespace with `None`-valued keys removed; append
`"[level] message"` on a truthy result; every evaluation exception
(missing name, type error, anything else) merely skips the alert. -/
def check_risk_alerts (alerts : List RiskAlert) (metrics : Metrics) : List String :=
  alerts.filterMap (fun a =>
    let ns := metrics.filter (fun p => decide (p.2 ≠ PyVal.none))
    match evalExpr a.condition ns with
    | Except.ok r =>
      if truthy r then some ("[" ++ a.level ++ "] " ++ a.message) else Option.none
    | Except.error _ => Option.none)

/-- `FrameworkEngine.analyze`: score every category, sum totals, attach
recommendation and risk alerts.  Every potentially-raising step of the
source body is wrapped in a handler there, so the embedding is a total
function. -/
def analyze (cfg : ScoringConfig) (metrics : Metrics) : AnalysisResult :=
  let cats := cfg.categories.map (fun c => evaluate_category c metrics)
  let total := (cats.map (fun c => c.score)).sum
  let maxS := (cats.map (fun c => c.max_score)).sum
  let rec3 := generate_recommendation cfg.recommendations total
  AnalysisResult.mk cfg.name cfg.description total maxS cats
    rec3.1 rec3.2.1 rec3.2.2 (check_risk_alerts cfg.risk_alerts metrics)

/-- Model of Python's `**` fractional power and `math`/`statistics` square
root.  The source computes these on floats; they have no exact rational
counterpart, so the screening engine is parametric in them. `fpow b e`
models `b ** e` for a nonnegative base `b`; `fsqrt v` models the square
root used inside `statistics.stdev`. -/
structure FloatOps where
  fpow : ℚ → ℚ → ℚ
  fsqrt : ℚ → ℚ

/-- One screening criterion (`categories[].criteria[]` of a screening
framework).  Required dict keys (`name`, `check_type`, `metric`,
`threshold`, `operator`, `years`) are plain fields — their absence would
be a config-level `KeyError`.  Keys the source reads with `.get` and a
default are either `Option` fields (`importance`, whose default differs
per check) or plain fields whose source default is materialised at
construction (`years` defaults to 5 for percentile/volatility/valuation
checks, `benchmark_value` to 0.025, `percentile_type` to `"median"`,
`market_cap_metric` to `"market_cap"`, `profit_metric` to
`"net_profit"`, `rating_scale` to `[]`). -/
structure Criterion where
  name : String
  description : String
  check_type : String
  metric : String
  threshold : PyVal
  operator : String
  years : Nat
  importance : Option String
  benchmark_value : ℚ
  rating_scale : List PyVal
  percentile_type : String
  market_cap_metric : String
  profit_metric : String
deriving DecidableEq

/-- Result record for one criterion (`CriterionResult` dataclass). -/
structure CriterionResult where
  name : String
  description : String
  passed : Bool
  actual_value : PyVal
  threshold : PyVal
  operator : String
  importance : String
  reason : String
deriving DecidableEq

/-- Result record for one screening category (`CategoryResult`). -/
structure CategoryResult where
  name : String
  description : String
  required : Bool
  passed : Bool
  criteria_results : List CriterionResult
deriving DecidableEq

/-- Derived property `CategoryResult.pass_rate`: fraction of passed
criteria, `0` for an empty list. -/
def CategoryResult.pass_rate (c : CategoryResult) : ℚ :=
  if c.criteria_results.isEmpty then 0
  else ((c.criteria_results.filter (fun r => r.passed)).length : ℚ)
    / (c.criteria_results.length : ℚ)

/-- Overall screening result (`ScreeningResult` dataclass). -/
structure ScreeningResult where
  framework_name : String
  framework_description : String
  passed : Bool
  result_type : String
  category_results : List CategoryResult
  failed_criteria : List CriterionResult
  suggestions : List String
deriving DecidableEq

/-- Derived property `ScreeningResult.total_pass_rate`: passed criteria
over all criteria across categories, `0` when there are none. -/
def ScreeningResult.total_pass_rate (r : ScreeningResult) : ℚ :=
  let all := (r.category_results.map (fun c => c.criteria_results)).flatten
  if all.isEmpty then 0
  else ((all.filter (fun c => c.passed)).length : ℚ) / (all.length : ℚ)

/-- Tolerance settings (`config.get('tolerance', {})`): each key is read
with `.get(key, default)`, so all fields are optional; a config without a
`tolerance` section is the record with four `Option.none` fields. -/
structure Tolerance where
  critical_must_pass : Option Bool
  high_min_pass_rate : Option ℚ
  medium_min_pass_rate : Option ℚ
  allow_partial_pass : Option Bool
deriving DecidableEq

/-- One screening category configuration; `required` mirrors
`category.get('required', True)` with the default materialised. -/
structure ScreeningCategory where
  name : String
  description : String
  required : Bool
  criteria : List Criterion
deriving DecidableEq

/-- A loaded screening framework configuration
(`ScreeningEngine.config`).  `industry_adjustments` maps an industry to
the name of its adjustment entry — the engine only logs it (incomplete
feature), so the entry's contents are irrelevant. -/
structure ScreeningConfig where
  name : String
  description : String
  categories : List ScreeningCategory
  tolerance : Tolerance
  industry_adjustments : List (String × String)
deriving DecidableEq

/-- Comparison primitive `ScreeningEngine._compare`: the six operators
`> >= < <= == !=`; an unknown operator returns `False`, and any exception
raised by the comparison itself (incomparable types) is caught and
returns `False`. -/
def compare_op (value : PyVal) (operator : String) (threshold : PyVal) : Bool :=
  let r : Except String Bool :=
    if operator == ">" then pyGt value threshold
    else if operator == ">=" then pyGe value threshold
    else if operator == "<" then pyLt value threshold
    else if operator == "<=" then pyLe value threshold
    else if operator == "==" then Except.ok (pyEqb value threshold)
    else if operator == "!=" then Except.ok (!pyEqb value threshold)
    else Except.ok false
  match r with
  | Except.ok b => b
  | Except.error _ => false

/-- Python percent formatting (`f"{v:.1%}"` / `f"{v:.2%}"`): renders a
number (booleans are ints, so they format too); raises `ValueError` on a
string and `TypeError` on `None`.  The digit count of the rendering is
abstracted. -/
def formatPct (v : PyVal) : Except String String :=
  match v with
  | PyVal.num q => Except.ok (toString (q * 100) ++ "%")
  | PyVal.bool b => Except.ok (toString (if b then (100 : ℚ) else 0) ++ "%")
  | PyVal.str _ => Except.error "ValueError: unknown format code % for str"
  | PyVal.none => Except.error "TypeError: unsupported format string passed to NoneType"

/-- Value rendering `ScreeningEngine._format_value`: `None` becomes
`"N/A"`; a metric name containing `rate`, `margin` or `ratio` (but not
`debt`) formats the value as a percentage — which raises on a string
value; otherwise floats print as numbers and everything else via
`str(value)`. -/
def format_value (value : PyVal) (metric_name : String) : Except String String :=
  match value with
  | PyVal.none => Except.ok "N/A"
  | v =>
    if (strContains metric_name "rate" || strContains metric_name "margin"
        || strContains metric_name "ratio") && !strContains metric_name "debt" then
      formatPct v
    else
      match v with
      | PyVal.num q => Except.ok (toString q)
      | w => Except.ok (pyStr w)

/-- Failure record of `_check_simple` and friends for an absent metric. -/
def check_simple (c : Criterion) (metrics : Metrics) : Except String CriterionResult :=
  match dictGet metrics c.metric with
  | PyVal.none =>
    Except.ok (CriterionResult.mk c.name c.description false PyVal.none c.threshold
      c.operator (c.importance.getD "medium") "数据缺失")
  | value =>
    let passed := compare_op value c.operator c.threshold
    match format_value value c.metric with
    | Except.error e => Except.error e
    | Except.ok fv =>
      Except.ok (CriterionResult.mk c.name c.description passed value c.threshold
        c.operator (c.importance.getD "medium") ("实际值: " ++ fv))

/-- Result of `_check_consecutive_years` when history is missing or
shorter than the required years. -/
def consecInsufficient (c : Criterion) : CriterionResult :=
  CriterionResult.mk c.name c.description false PyVal.none c.threshold c.operator
    (c.importance.getD "medium") ("历史数据不足（需要" ++ toString c.years ++ "年）")

/-- Loop body of `_check_consecutive_years`: walk the most-recent-first
history, break on a missing value, append the value, count while the
comparison holds and break at the first failure.  Returns the streak
length and the values collected (including the failing one). -/
def consecutiveScan (metric operator : String) (threshold : PyVal) :
    List Metrics → Nat × List PyVal
  | [] => (0, [])
  | h :: rest =>
    match dictGet h metric with
    | PyVal.none => (0, [])
    | v =>
      if compare_op v operator threshold then
        let r := consecutiveScan metric operator threshold rest
        (r.1 + 1, v :: r.2)
      else (0, [v])

/-- Check `consecutive_years`: the contiguous-from-most-recent streak
within `history[0..years)` must reach `years`. -/
def check_consecutive_years (c : Criterion) (current : Metrics)
    (hist : Option (List Metrics)) : Except String CriterionResult :=
  match hist with
  | Option.none => Except.ok (consecInsufficient c)
  | some l =>
    if l.isEmpty || l.length < c.years then Except.ok (consecInsufficient c)
    else
      let scan := consecutiveScan c.metric c.operator c.threshold (l.take c.years)
      let passed := decide (scan.1 ≥ c.years)
      match (scan.2.take 3).mapM (fun v => format_value v c.metric) with
      | Except.error e => Except.error e
      | Except.ok fvs =>
        Except.ok (CriterionResult.mk c.name c.description passed
          (PyVal.num (scan.1 : ℚ)) (PyVal.num (c.years : ℚ)) ">="
          (c.importance.getD "medium")
          ("连续" ++ toString scan.1 ++ "/" ++ toString c.years
            ++ "年满足条件，近年值: " ++ toString fvs))

/-- Failure record of `_check_cagr`; note the hardcoded `">"` operator. -/
def cagrInvalid (c : Criterion) (reason : String) : CriterionResult :=
  CriterionResult.mk c.name c.description false PyVal.none c.threshold ">"
    (c.importance.getD "medium") reason

/-- Check `cagr`: `(history[0][m] / history[years-1][m]) ** (1/years) - 1`
compared with `cagr > threshold` — the source never reads the criterion's
`operator` here.  Python's `history[years - 1]` with `years = 0` is the
last element (negative index); `1 / years` then raises
`ZeroDivisionError`.  A negative ratio raised to the fractional power
produces a `complex`, and the `>` against the threshold then raises
`TypeError`; the embedding raises at the power. -/
def check_cagr (F : FloatOps) (c : Criterion) (hist : Option (List Metrics)) :
    Except String CriterionResult :=
  match hist with
  | Option.none =>
    Except.ok (cagrInvalid c ("历史数据不足（需要" ++ toString c.years ++ "年）"))
  | some l =>
    if l.isEmpty || l.length < c.years then
      Except.ok (cagrInvalid c ("历史数据不足（需要" ++ toString c.years ++ "年）"))
    else
      let startDict := if c.years = 0 then l.getLastD [] else l.getD (c.years - 1) []
      let start_value := dictGet startDict c.metric
      let end_value := dictGet (l.getD 0 []) c.metric
      match start_value with
      | PyVal.none => Except.ok (cagrInvalid c "数据缺失或无效")
      | sv =>
        match end_value with
        | PyVal.none => Except.ok (cagrInvalid c "数据缺失或无效")
        | ev =>
          match pyLe sv (PyVal.num 0) with
          | Except.error e => Except.error e
          | Except.ok le0 =>
            if le0 then Except.ok (cagrInvalid c "数据缺失或无效")
            else
              match ev.asNum, sv.asNum with
              | some e0, some s0 =>
                if c.years = 0 then Except.error "ZeroDivisionError: division by zero"
                else if e0 / s0 < 0 then Except.error "TypeError: complex comparison"
                else
                  let cagr := F.fpow (e0 / s0) (1 / (c.years : ℚ)) - 1
                  match pyGt (PyVal.num cagr) c.threshold with
                  | Except.error e => Except.error e
                  | Except.ok passed =>
                    Except.ok (CriterionResult.mk c.name c.description passed
                      (PyVal.num cagr) c.threshold ">" (c.importance.getD "medium")
                      (toString c.years ++ "年CAGR: " ++ toString (cagr * 100) ++ "%"))
              | _, _ => Except.error "TypeError: unsupported operand types for /"

/-- Check `latest_quarter`: the source delegates to `_check_simple`. -/
def check_latest_quarter (c : Criterion) (metrics : Metrics) :
    Except String CriterionResult :=
  check_simple c metrics

/-- Check `compare_benchmark`: compare against the config benchmark value
(default 0.025) via `operator`, ignoring `threshold`. -/
def check_compare_benchmark (c : Criterion) (metrics : Metrics) :
    Except String CriterionResult :=
  match dictGet metrics c.metric with
  | PyVal.none =>
    Except.ok (CriterionResult.mk c.name c.description false PyVal.none
      (PyVal.num c.benchmark_value) c.operator (c.importance.getD "medium") "数据缺失")
  | value =>
    let passed := compare_op value c.operator (PyVal.num c.benchmark_value)
    match formatPct value with
    | Except.error e => Except.error e
    | Except.ok fv =>
      Except.ok (CriterionResult.mk c.name c.description passed value
        (PyVal.num c.benchmark_value) c.operator (c.importance.getD "medium")
        ("实际: " ++ fv ++ ", 基准: " ++ toString (c.benchmark_value * 100) ++ "%"))

/-- Check `negative_screen`: `current_metrics.get(metric, 0)` — an absent
key (unlike an explicit `None` value) is replaced by `0` — then a plain
`==` against the threshold; `importance` defaults to `critical` here. -/
def check_negative_screen (c : Criterion) (current : Metrics)
    (hist : Option (List Metrics)) : Except String CriterionResult :=
  let value := dictGetD current c.metric (PyVal.num 0)
  let passed := pyEqb value c.threshold
  let reason := if passed then "无违规记录" else "发现" ++ pyStr value ++ "条违规记录"
  Except.ok (CriterionResult.mk c.name c.description passed value c.threshold "=="
    (c.importance.getD "critical") reason)

/-- Check `rating`: ordinal comparison of the indices of value and
threshold in `rating_scale`; `list.index` raising `ValueError` (either
element absent) is caught and fails the criterion. -/
def check_rating (c : Criterion) (metrics : Metrics) : Except String CriterionResult :=
  match dictGet metrics c.metric with
  | PyVal.none =>
    Except.ok (CriterionResult.mk c.name c.description false PyVal.none c.threshold
      ">=" (c.importance.getD "medium") "无评级数据")
  | value =>
    match c.rating_scale.findIdx? (fun x => pyEqb x value),
        c.rating_scale.findIdx? (fun x => pyEqb x c.threshold) with
    | some vi, some ti =>
      Except.ok (CriterionResult.mk c.name c.description (decide (vi ≥ ti)) value
        c.threshold ">=" (c.importance.getD "medium") ("评级: " ++ pyStr value))
    | _, _ =>
      Except.ok (CriterionResult.mk c.name c.description false value c.threshold
        ">=" (c.importance.getD "medium") ("评级无效: " ++ pyStr value))

/-- Insertion step for `pySort`. -/
def insertSorted (x : ℚ) : List ℚ → List ℚ
  | [] => [x]
  | y :: ys => if x ≤ y then x :: y :: ys else y :: insertSorted x ys

/-- Ascending sort, modelling Python's `list.sort()` /
`statistics.median`'s internal sort on numbers. -/
def pySort (l : List ℚ) : List ℚ := l.foldr insertSorted []

/-- Arithmetic mean (`statistics.mean`; exact over `ℚ`). -/
def meanQ (l : List ℚ) : ℚ := l.sum / (l.length : ℚ)

/-- Median (`statistics.median`): middle element for odd length, average
of the two middle elements for even length (exact over `ℚ`). -/
def medianQ (l : List ℚ) : ℚ :=
  let s := pySort l
  if s.length % 2 = 1 then s.getD (s.length / 2) 0
  else (s.getD (s.length / 2 - 1) 0 + s.getD (s.length / 2) 0) / 2

/-- Sample variance with Bessel's correction: `statistics.stdev` is
`fsqrt` of this (the source only calls it with at least 3 values). -/
def sampleVarQ (l : List ℚ) : ℚ :=
  (l.map (fun x => (x - meanQ l) ^ 2)).sum / ((l.length : ℚ) - 1)

/-- Historical-value collection loop shared by `_check_historical_percentile`
and `_check_volatility`: `if value is not None and value > 0:` — the
`value > 0` comparison raises `TypeError` on a non-numeric, non-`None`
value (a string), which propagates. -/
def collectPositive (metric : String) : List Metrics → Except String (List ℚ)
  | [] => Except.ok []
  | h :: t =>
    match dictGet h metric with
    | PyVal.none => collectPositive metric t
    | v =>
      match v.asNum with
      | some q =>
        match collectPositive metric t with
        | Except.error e => Except.error e
        | Except.ok rest => Except.ok (if 0 < q then q :: rest else rest)
      | Option.none => Except.error "TypeError: unorderable types"

/-- Failure record of `_check_historical_percentile` (threshold `None`). -/
def percInsufficient (c : Criterion) (actual : PyVal) (reason : String) :
    CriterionResult :=
  CriterionResult.mk c.name c.description false actual PyVal.none c.operator
    (c.importance.getD "medium") reason

/-- Check `historical_percentile`: compare the current value against the
`median`/`mean`/`25th`/`75th` statistic of up to `years` of positive
historical values; at least 3 valid points are required.  The relative
position `current / percentile` is computed before the reason string, so
a string current value raises `TypeError` at that division. -/
def check_historical_percentile (c : Criterion) (current : Metrics)
    (hist : Option (List Metrics)) : Except String CriterionResult :=
  match hist with
  | Option.none =>
    Except.ok (percInsufficient c PyVal.none
      ("历史数据不足（需要" ++ toString c.years ++ "年）"))
  | some l =>
    if l.isEmpty || l.length < c.years then
      Except.ok (percInsufficient c PyVal.none
        ("历史数据不足（需要" ++ toString c.years ++ "年）"))
    else
      match dictGet current c.metric with
      | PyVal.none => Except.ok (percInsufficient c PyVal.none "当前数据缺失")
      | cv =>
        match collectPositive c.metric (l.take c.years) with
        | Except.error e => Except.error e
        | Except.ok hv =>
          if hv.length < 3 then
            Except.ok (percInsufficient c cv
              ("有效历史数据不足（仅" ++ toString hv.length ++ "个）"))
          else
            let tv : ℚ :=
              if c.percentile_type == "median" then medianQ hv
              else if c.percentile_type == "mean" then meanQ hv
              else if c.percentile_type == "25th" then (pySort hv).getD (hv.length / 4) 0
              else if c.percentile_type == "75th" then
                (pySort hv).getD (3 * hv.length / 4) 0
              else medianQ hv
            let passed := compare_op cv c.operator (PyVal.num tv)
            match (if tv > 0 then pyDiv cv (PyVal.num tv)
                   else Except.ok (PyVal.num 0)) with
            | Except.error e => Except.error e
            | Except.ok rel =>
              match format_value cv c.metric with
              | Except.error e => Except.error e
              | Except.ok fcv =>
                match format_value (PyVal.num tv) c.metric with
                | Except.error e => Except.error e
                | Except.ok ftv =>
                  Except.ok (CriterionResult.mk c.name c.description passed cv
                    (PyVal.num tv) c.operator (c.importance.getD "medium")
                    ("当前: " ++ fcv ++ ", " ++ toString c.years ++ "年"
                      ++ c.percentile_type ++ ": " ++ ftv ++ ", 相对位置: "
                      ++ pyStr rel ++ "x"))

/-- Failure record of `_check_volatility`. -/
def volInsufficient (c : Criterion) (reason : String) : CriterionResult :=
  CriterionResult.mk c.name c.description false PyVal.none c.threshold c.operator
    (c.importance.getD "medium") reason

/-- Check `volatility`: coefficient of variation `stdev / mean` over up
to `years` of positive historical values (at least 3 required).  In the
`mean == 0` branch the source sets the 999 sentinel but its reason
f-string reads the never-assigned local `std_dev`, raising
`UnboundLocalError`; the branch is unreachable because collected values
are all positive. -/
def check_volatility (F : FloatOps) (c : Criterion) (hist : Option (List Metrics)) :
    Except String CriterionResult :=
  match hist with
  | Option.none =>
    Except.ok (volInsufficient c ("历史数据不足（需要" ++ toString c.years ++ "年）"))
  | some l =>
    if l.isEmpty || l.length < c.years then
      Except.ok (volInsufficient c ("历史数据不足（需要" ++ toString c.years ++ "年）"))
    else
      match collectPositive c.metric (l.take c.years) with
      | Except.error e => Except.error e
      | Except.ok values =>
        if values.length < 3 then
          Except.ok (volInsufficient c ("有效数据不足（仅" ++ toString values.length ++ "个）"))
        else
          let mean := meanQ values
          if mean = 0 then Except.error "UnboundLocalError: std_dev"
          else
            let std := F.fsqrt (sampleVarQ values)
            let vol := std / mean
            let passed := compare_op (PyVal.num vol) c.operator c.threshold
            match format_value (PyVal.num mean) c.metric with
            | Except.error e => Except.error e
            | Except.ok fmean =>
              Except.ok (CriterionResult.mk c.name c.description passed
                (PyVal.num vol) c.threshold c.operator (c.importance.getD "medium")
                (toString c.years ++ "年波动率: " ++ toString (vol * 100)
                  ++ "%, 均值: " ++ fmean ++ ", 标准差: " ++ toString std))

/-- Failure record of `_check_valuation_expansion`. -/
def valuationInvalid (c : Criterion) (reason : String) : CriterionResult :=
  CriterionResult.mk c.name c.description false PyVal.none c.threshold c.operator
    (c.importance.getD "medium") reason

/-- Check `valuation_expansion`: market-cap CAGR over profit CAGR with
the 999 sentinel for non-positive profit growth.  The endpoint reads use
the same `years - 1` index as `check_cagr` (Python's `-1` = last element
when `years = 0`, with `1 / years` raising afterwards); string endpoint
values raise `TypeError` at the `<= 0` comparisons or at the divisions,
and a negative ratio raises via the complex comparison, as in
`check_cagr`. -/
def check_valuation_expansion (F : FloatOps) (c : Criterion)
    (hist : Option (List Metrics)) : Except String CriterionResult :=
  match hist with
  | Option.none =>
    Except.ok (valuationInvalid c ("历史数据不足（需要" ++ toString c.years ++ "年）"))
  | some l =>
    if l.isEmpty || l.length < c.years then
      Except.ok (valuationInvalid c ("历史数据不足（需要" ++ toString c.years ++ "年）"))
    else
      let startDict := if c.years = 0 then l.getLastD [] else l.getD (c.years - 1) []
      let smc := dictGet startDict c.market_cap_metric
      let emc := dictGet (l.getD 0 []) c.market_cap_metric
      let spr := dictGet startDict c.profit_metric
      let epr := dictGet (l.getD 0 []) c.profit_metric
      if smc = PyVal.none || emc = PyVal.none || spr = PyVal.none || epr = PyVal.none then
        Except.ok (valuationInvalid c "市值或利润数据缺失")
      else
        match pyLe smc (PyVal.num 0) with
        | Except.error e => Except.error e
        | Except.ok smcLe =>
          if smcLe then Except.ok (valuationInvalid c "起始数据无效（≤0）")
          else
            match pyLe spr (PyVal.num 0) with
            | Except.error e => Except.error e
            | Except.ok sprLe =>
              if sprLe then Except.ok (valuationInvalid c "起始数据无效（≤0）")
              else
                match emc.asNum, smc.asNum, epr.asNum, spr.asNum with
                | some e1, some s1, some e2, some s2 =>
                  if c.years = 0 then Except.error "ZeroDivisionError: division by zero"
                  else if e1 / s1 < 0 then Except.error "TypeError: complex comparison"
                  else if e2 / s2 < 0 then Except.error "TypeError: complex comparison"
                  else
                    let mcCagr := F.fpow (e1 / s1) (1 / (c.years : ℚ)) - 1
                    let prCagr := F.fpow (e2 / s2) (1 / (c.years : ℚ)) - 1
                    if prCagr ≤ 0 then
                      let passed := compare_op (PyVal.num 999) c.operator c.threshold
                      Except.ok (CriterionResult.mk c.name c.description passed
                        (PyVal.num 999) c.threshold c.operator
                        (c.importance.getD "medium")
                        ("利润负增长（" ++ toString (prCagr * 100)
                          ++ "%），估值扩张率无意义"))
                    else
                      let er := mcCagr / prCagr
                      let passed := compare_op (PyVal.num er) c.operator c.threshold
                      Except.ok (CriterionResult.mk c.name c.description passed
                        (PyVal.num er) c.threshold c.operator
                        (c.importance.getD "medium")
                        ("市值CAGR: " ++ toString (mcCagr * 100) ++ "%, 利润CAGR: "
                          ++ toString (prCagr * 100) ++ "%, 扩张率: "
                          ++ toString er ++ "x"))
                | _, _, _, _ => Except.error "TypeError: unsupported operand types for /"

/-- Dispatch of `ScreeningEngine._check_criterion` on `check_type`; an
unknown type yields a failed result with reason `不支持的检查类型`
(logged as a warning, not fatal). -/
def check_criterion (F : FloatOps) (c : Criterion) (current : Metrics)
    (hist : Option (List Metrics)) : Except String CriterionResult :=
  if c.check_type == "simple" then check_simple c current
  else if c.check_type == "consecutive_years" then
    check_consecutive_years c current hist
  else if c.check_type == "cagr" then check_cagr F c hist
  else if c.check_type == "latest_quarter" then check_latest_quarter c current
  else if c.check_type == "compare_benchmark" then check_compare_benchmark c current
  else if c.check_type == "negative_screen" then check_negative_screen c current hist
  else if c.check_type == "rating" then check_rating c current
  else if c.check_type == "historical_percentile" then
    check_historical_percentile c current hist
  else if c.check_type == "volatility" then check_volatility F c hist
  else if c.check_type == "valuation_expansion" then check_valuation_expansion F c hist
  else
    Except.ok (CriterionResult.mk c.name c.description false PyVal.none PyVal.none
      "" (c.importance.getD "medium") "不支持的检查类型")

/-- Tolerance verdict `ScreeningEngine._check_with_tolerance` for a
non-required category: criteria are grouped by exact importance string;
if `critical_must_pass` (default `True`) and any critical criterion
failed, the category fails; then each non-empty `high` / `medium` group
must reach its minimum pass rate (defaults 0.8 and 0.6). -/
def check_with_tolerance (crs : List CriterionResult) (tol : Tolerance) : Bool :=
  let critical := crs.filter (fun c => c.importance == "critical")
  let high := crs.filter (fun c => c.importance == "high")
  let medium := crs.filter (fun c => c.importance == "medium")
  if tol.critical_must_pass.getD true && !(critical.all (fun c => c.passed)) then
    false
  else if !high.isEmpty &&
      decide (((high.filter (fun c => c.passed)).length : ℚ) / (high.length : ℚ)
        < tol.high_min_pass_rate.getD (4/5)) then
    false
  else if !medium.isEmpty &&
      decide (((medium.filter (fun c => c.passed)).length : ℚ) / (medium.length : ℚ)
        < tol.medium_min_pass_rate.getD (3/5)) then
    false
  else
    true

/-- Category evaluation `ScreeningEngine._check_category`: run every
criterion; a required category passes iff all criteria pass, otherwise
the tolerance policy decides. -/
def check_category (F : FloatOps) (tol : Tolerance) (cat : ScreeningCategory)
    (current : Metrics) (hist : Option (List Metrics)) :
    Except String CategoryResult :=
  match cat.criteria.mapM (fun c => check_criterion F c current hist) with
  | Except.error e => Except.error e
  | Except.ok rs =>
    let passed := if cat.required then rs.all (fun r => r.passed)
      else check_with_tolerance rs tol
    Except.ok (CategoryResult.mk cat.name cat.description cat.required passed rs)

/-- Overall verdict `ScreeningEngine._determine_result`: all required
categories passing gives `(True, "pass")`; else with `allow_partial_pass`
and a mean category pass rate of at least 0.7, `(False, "partial")`;
else `(False, "fail")`.  The division by the number of categories is
only reached when some required category failed, so the list is
nonempty there (in `ℚ` the division is total anyway). -/
def determine_result (tol : Tolerance) (cats : List CategoryResult) : Bool × String :=
  let required := cats.filter (fun c => c.required)
  if required.all (fun c => c.passed) then (true, "pass")
  else if tol.allow_partial_pass.getD false then
    if (cats.map (fun c => c.pass_rate)).sum / (cats.length : ℚ) ≥ 7/10 then
      (false, "partial")
    else (false, "fail")
  else (false, "fail")

/-- Suggestion texts `ScreeningEngine._generate_suggestions`: a header
plus up to 3 bullet items for failed critical criteria, then the same
for failed high-importance criteria. -/
def generate_suggestions (failed : List CriterionResult) : List String :=
  let criticalFailed := failed.filter (fun c => c.importance == "critical")
  let highFailed := failed.filter (fun c => c.importance == "high")
  (if !criticalFailed.isEmpty then
    ("⚠️ 关键指标未达标（" ++ toString criticalFailed.length ++ "项）：")
      :: (criticalFailed.take 3).map (fun c => "  • " ++ c.name ++ ": " ++ c.reason)
  else []) ++
  (if !highFailed.isEmpty then
    ("📊 重要指标需改善（" ++ toString highFailed.length ++ "项）：")
      :: (highFailed.take 3).map (fun c => "  • " ++ c.name ++ ": " ++ c.reason)
  else [])

/-- Industry adjustment hook `_apply_industry_adjustments`: the source
looks the industry up only to log the adjustment's name and returns the
config unchanged (acknowledged incomplete feature). -/
def apply_industry_adjustments (cfg : ScreeningConfig) (industry : Option String) :
    ScreeningConfig :=
  cfg

/-- Public operation `ScreeningEngine.screen`: apply the (no-op) industry
adjustment, check every category, collect failed criteria in category
and criterion order, determine the overall verdict and build the
suggestions. -/
def screen (F : FloatOps) (cfg : ScreeningConfig) (current_metrics : Metrics)
    (historical_metrics : Option (List Metrics)) (industry : Option String) :
    Except String ScreeningResult :=
  let adjusted := apply_industry_adjustments cfg industry
  match adjusted.categories.mapM
      (fun cat => check_category F cfg.tolerance cat current_metrics historical_metrics) with
  | Except.error e => Except.error e
  | Except.ok catResults =>
    let failed := (catResults.map
      (fun c => c.criteria_results.filter (fun r => !r.passed))).flatten
    let pr := determine_result cfg.tolerance catResults
    Except.ok (ScreeningResult.mk cfg.name cfg.description pr.1 pr.2 catResults
      failed (generate_suggestions failed))

/-- View of a check result for stating concrete facts: the `passed` flag
when the check returned, `Option.none` when it raised. -/
def resultPassed : Except String CriterionResult → Option Bool
  | Except.ok r => some r.passed
  | Except.error _ => Option.none

/-- View of a check result: its `actual_value` when it returned. -/
def resultActual : Except String CriterionResult → Option PyVal
  | Except.ok r => some r.actual_value
  | Except.error _ => Option.none

/-- View of a check result: its reported `operator` when it returned. -/
def resultOperator : Except String CriterionResult → Option String
  | Except.ok r => some r.operator
  | Except.error _ => Option.none

/-- Claim-side predicate for C8: the Python comparison inside `_compare`
raises exactly when an ordered operator meets operands with neither a
common numeric nor a common string view. -/
def cmpRaises (value : PyVal) (operator : String) (threshold : PyVal) : Bool :=
  (operator == ">" || operator == ">=" || operator == "<" || operator == "<=") &&
  (match pyLt value threshold with
   | Except.error _ => true
   | Except.ok _ => false)

/-- C8: the comparison primitive `_compare` is total — it supports exactly
the six operators `> >= < <= == !=` (with their standard meaning on
numbers), returns `false` for any operator outside that list, and returns
`false` instead of raising when the comparison itself would raise on
incomparable operands. -/
theorem compare_total :
    (∀ (v t : PyVal) (op : String),
      op ∉ ([">", ">=", "<", "<=", "==", "!="] : List String) →
      compare_op v op t = false) ∧
    (∀ (v t : PyVal) (op : String),
      cmpRaises v op t = true → compare_op v op t = false) ∧
    (∀ (a b : ℚ),
      compare_op (PyVal.num a) ">" (PyVal.num b) = decide (a > b) ∧
      compare_op (PyVal.num a) ">=" (PyVal.num b) = decide (a ≥ b) ∧
      compare_op (PyVal.num a) "<" (PyVal.num b) = decide (a < b) ∧
      compare_op (PyVal.num a) "<=" (PyVal.num b) = decide (a ≤ b) ∧
      compare_op (PyVal.num a) "==" (PyVal.num b) = decide (a = b) ∧
      compare_op (PyVal.num a) "!=" (PyVal.num b) = !decide (a = b)) := by
  refine ⟨?_, ?_, ?_⟩
  · intro v t op h
    simp only [List.mem_cons, List.not_mem_nil, or_false, not_or] at h
    obtain ⟨h1, h2, h3, h4, h5, h6⟩ := h
    simp [compare_op, h1, h2, h3, h4, h5, h6]
  · intro v t op h
    simp only [cmpRaises, Bool.and_eq_true, Bool.or_eq_true, beq_iff_eq] at h
    obtain ⟨hop, herr⟩ := h
    cases v <;> cases t <;>
      simp only [pyLt, PyVal.asNum, Bool.false_eq_true] at herr <;>
      rcases hop with ((rfl | rfl) | rfl) | rfl <;>
      simp [compare_op, pyGt, pyGe, pyLt, pyLe, PyVal.asNum]
  · intro a b
    exact ⟨rfl, rfl, rfl, rfl, rfl, rfl⟩

/-- Witness for C8: the unknown operator `**` and the incomparable pair
(string, number) under `>` both yield `false`. -/
theorem compare_total_witness :
    compare_op (PyVal.num 1) "**" (PyVal.num 2) = false ∧
    compare_op (PyVal.str "Q") ">" (PyVal.num 0) = false :=
  ⟨compare_total.1 (PyVal.num 1) (PyVal.num 2) "**" (by decide),
   compare_total.2.1 (PyVal.str "Q") (PyVal.num 0) ">" (by decide)⟩

/-- C9: `score_percentage` is `total_score / max_score * 100` (and `0`
when `max_score` is `0`), and `grade` is the step function of
`score_percentage`: at least 90 gives `A+`, at least 80 `A`, at least 70
`B`, at least 60 `C`, at least 50 `D`, and anything lower `F`. -/
theorem score_percentage_grade (r : AnalysisResult) :
    (r.max_score = 0 → r.score_percentage = 0) ∧
    (r.max_score > 0 → r.score_percentage = r.total_score / r.max_score * 100) ∧
    (r.score_percentage ≥ 90 → r.grade = "A+") ∧
    (80 ≤ r.score_percentage ∧ r.score_percentage < 90 → r.grade = "A") ∧
    (70 ≤ r.score_percentage ∧ r.score_percentage < 80 → r.grade = "B") ∧
    (60 ≤ r.score_percentage ∧ r.score_percentage < 70 → r.grade = "C") ∧
    (50 ≤ r.score_percentage ∧ r.score_percentage < 60 → r.grade = "D") ∧
    (r.score_percentage < 50 → r.grade = "F") := by
  refine ⟨?_, ?_, ?_, ?_, ?_, ?_, ?_, ?_⟩
  · intro h; simp [AnalysisResult.score_percentage, h]
  · intro h; simp [AnalysisResult.score_percentage, h]
  · intro h; rw [AnalysisResult.grade, if_pos h]
  · intro h
    rw [AnalysisResult.grade, if_neg (by linarith [h.2]), if_pos h.1]
  · intro h
    rw [AnalysisResult.grade, if_neg (by linarith [h.2]), if_neg (by linarith [h.2]),
      if_pos h.1]
  · intro h
    rw [AnalysisResult.grade, if_neg (by linarith [h.2]), if_neg (by linarith [h.2]),
      if_neg (by linarith [h.2]), if_pos h.1]
  · intro h
    rw [AnalysisResult.grade, if_neg (by linarith [h.2]), if_neg (by linarith [h.2]),
      if_neg (by linarith [h.2]), if_neg (by linarith [h.2]), if_pos h.1]
  · intro h
    rw [AnalysisResult.grade, if_neg (by linarith), if_neg (by linarith),
      if_neg (by linarith), if_neg (by linarith), if_neg (by linarith)]

/-- Concrete analysis result for the C9 witness: `max_score = 0`. -/
def c9res : AnalysisResult :=
  AnalysisResult.mk "示例框架" "" 0 0 [] "观察" "" "低" []

/-- Witness for C9: with `max_score = 0` the percentage is `0` and the
grade is `F`. -/
theorem score_percentage_grade_witness :
    c9res.score_percentage = 0 ∧ c9res.grade = "F" :=
  ⟨(score_percentage_grade c9res).1 rfl,
   (score_percentage_grade c9res).2.2.2.2.2.2.2
     (by simp [AnalysisResult.score_percentage, c9res])⟩

/-- Claim-side view of rule matching for C4: a `default` rule always
matches once reached; a conditional rule matches when its condition
evaluates true. -/
def ruleMatches : Rule → PyVal → Bool
  | Rule.defaultRule _ _, _ => true
  | Rule.condRule cond _ _, v => evaluate_condition cond v

/-- Score a rule awards when it matches. -/
def ruleScore : Rule → ℚ
  | Rule.defaultRule s _ => s
  | Rule.condRule _ s _ => s

/-- Comment a rule awards when it matches. -/
def ruleComment : Rule → String
  | Rule.defaultRule _ c => c
  | Rule.condRule _ _ c => c

/-- Helper for C4: skipping the non-matching prefix of the rule walk. -/
theorem evalRules_first_match (v : PyVal) (r : Rule) (post : List Rule) :
    ∀ pre : List Rule, (∀ p ∈ pre, ruleMatches p v = false) →
      ruleMatches r v = true →
      evalRules (pre ++ r :: post) v = (ruleScore r, ruleComment r) := by
  intro pre
  induction pre with
  | nil =>
    intro _ hr
    cases r with
    | defaultRule s c => simp [evalRules, ruleScore, ruleComment]
    | condRule cond s c =>
      simp only [ruleMatches] at hr
      simp [evalRules, hr, ruleScore, ruleComment]
  | cons p pre ih =>
    intro hpre hr
    cases p with
    | defaultRule s c =>
      have := hpre (Rule.defaultRule s c) (List.mem_cons_self _ _)
      simp [ruleMatches] at this
    | condRule cond s c =>
      have hm := hpre (Rule.condRule cond s c) (List.mem_cons_self _ _)
      simp only [ruleMatches] at hm
      simpa [evalRules, hm] using
        ih (fun q hq => hpre q (List.mem_cons_of_mem _ hq)) hr

/-- C4: for a metric with a non-null value, the rules are walked in
declared order and the first matching rule wins — the first conditional
rule whose condition is true (or a default rule, unconditionally once
reached) determines the score and comment, whatever rules follow it. -/
theorem first_match_wins (mc : MetricConfig) (v : PyVal) (pre : List Rule)
    (r : Rule) (post : List Rule)
    (hv : v ≠ PyVal.none)
    (hrules : mc.rules = pre ++ r :: post)
    (hpre : ∀ p ∈ pre, ruleMatches p v = false)
    (hr : ruleMatches r v = true) :
    evaluate_metric mc v = (ruleScore r, ruleComment r) := by
  have hnn : evaluate_metric mc v = evalRules mc.rules v := by
    cases v with
    | none => exact absurd rfl hv
    | num q => rfl
    | str s => rfl
    | bool b => rfl
  rw [hnn, hrules]
  exact evalRules_first_match v r post pre hpre hr

/-- Rules of the C4 witness, the claim's example: `value >= 0.5` scores
100, `value >= 0.2` scores 60, default 0. -/
def c4rules : List Rule :=
  [Rule.condRule (CondExpr.bin ">=" (CondExpr.var "value")
      (CondExpr.lit (PyVal.num (Rat.divInt 1 2)))) 100 "优秀",
   Rule.condRule (CondExpr.bin ">=" (CondExpr.var "value")
      (CondExpr.lit (PyVal.num (Rat.divInt 1 5)))) 60 "一般",
   Rule.defaultRule 0 "较差"]

/-- Metric configuration of the C4 witness. -/
def c4mc : MetricConfig := MetricConfig.mk "roe" "净资产收益率" 100 c4rules "%"

/-- Witness for C4: value 0.6 always scores 100 through the first rule,
never falling through to the 60-point rule. -/
theorem first_match_wins_witness :
    evaluate_metric c4mc (PyVal.num (Rat.divInt 3 5)) = (100, "优秀") :=
  first_match_wins c4mc (PyVal.num (Rat.divInt 3 5)) []
    (Rule.condRule (CondExpr.bin ">=" (CondExpr.var "value")
      (CondExpr.lit (PyVal.num (Rat.divInt 1 2)))) 100 "优秀")
    (c4rules.drop 1) (by decide) rfl (by decide) (by decide)

/-- C7: with an empty metrics map every metric's value is absent, rule
matching is skipped entirely (the result (0, 数据缺失) does not depend on
the rules), every metric scores `0` with the missing-data sentinel
comment, and the total score is `0`. -/
theorem empty_metrics_zero_score (cfg : ScoringConfig) :
    (∀ mc : MetricConfig, evaluate_metric mc PyVal.none = (0, "数据缺失")) ∧
    (analyze cfg []).total_score = 0 ∧
    (∀ cs ∈ (analyze cfg []).category_scores, cs.score = 0 ∧
      ∀ ms ∈ cs.metrics, ms.score = 0 ∧ ms.comment = "数据缺失") := by
  have hmet : ∀ mc : MetricConfig,
      evaluate_metric mc (dictGet [] mc.name) = (0, "数据缺失") := fun _ => rfl
  have hcat : ∀ cat : ScoringCategory, (evaluate_category cat []).score = 0 ∧
      ∀ ms ∈ (evaluate_category cat []).metrics,
        ms.score = 0 ∧ ms.comment = "数据缺失" := by
    intro cat
    simp only [evaluate_category, List.map_map]
    constructor
    · apply List.sum_eq_zero
      intro x hx
      rcases List.mem_map.mp hx with ⟨mc, _, rfl⟩
      simp [Function.comp, hmet]
    · intro ms hms
      rcases List.mem_map.mp hms with ⟨mc, _, rfl⟩
      simp [hmet]
  refine ⟨fun mc => rfl, ?_, ?_⟩
  · simp only [analyze, List.map_map]
    apply List.sum_eq_zero
    intro x hx
    rcases List.mem_map.mp hx with ⟨cat, _, rfl⟩
    simpa [Function.comp] using (hcat cat).1
  · intro cs hcs
    simp only [analyze] at hcs
    rcases List.mem_map.mp hcs with ⟨cat, _, rfl⟩
    exact hcat cat

/-- Category of the C7 witness. -/
def c7cat : ScoringCategory :=
  ScoringCategory.mk "盈利能力" "盈利相关指标" 50
    [MetricConfig.mk "roe" "净资产收益率" 50
      [Rule.condRule (CondExpr.bin ">=" (CondExpr.var "value")
        (CondExpr.lit (PyVal.num (Rat.divInt 3 20)))) 50 "优秀",
       Rule.defaultRule 0 "较差"] "%"]

/-- Scoring config of the C7 witness. -/
def c7cfg : ScoringConfig :=
  ScoringConfig.mk "价值投资" "演示配置" [c7cat]
    [Recommendation.mk 0 100 "观察" "演示" "中"] []

/-- Metric score produced for the C7 witness's single metric on empty
metrics. -/
def c7ms : MetricScore :=
  MetricScore.mk "roe" "净资产收益率" PyVal.none 0 50 "数据缺失" "%"

/-- Witness for C7: on the demo config with `metrics = {}` the total
score is 0 and the single metric scores 0 with the missing-data
sentinel. -/
theorem empty_metrics_zero_score_witness :
    (analyze c7cfg []).total_score = 0 ∧ c7ms.score = 0 ∧ c7ms.comment = "数据缺失" :=
  ⟨(empty_metrics_zero_score c7cfg).2.1,
   ((empty_metrics_zero_score c7cfg).2.2 (evaluate_category c7cat [])
      (by simp [analyze, c7cfg])).2 c7ms (by decide)⟩

/-- Membership of a positional read, for the endpoint snapshots of the
CAGR-style checks. -/
theorem getD_mem {α : Type} (l : List α) (i : Nat) (d : α) (h : i < l.length) :
    l.getD i d ∈ l := by
  induction l generalizing i with
  | nil => simp at h
  | cons a t ih =>
    cases i with
    | zero => simp [List.getD]
    | succ n =>
      simp only [List.getD_cons_succ]
      exact List.mem_cons_of_mem _ (ih n (by simpa using h))

/-- Membership of Python's `list[-1]` read. -/
theorem getLastD_mem {α : Type} (l : List α) (d : α) (h : l ≠ []) :
    l.getLastD d ∈ l := by
  cases l with
  | nil => exact absurd rfl h
  | cons a t => exact List.getLast_mem _

/-- A successful association-list lookup comes from a member pair. -/
theorem lookup_mem : ∀ {m : Metrics} {k : String} {v : PyVal},
    m.lookup k = some v → (k, v) ∈ m := by
  intro m
  induction m with
  | nil => intro k v h; simp [List.lookup] at h
  | cons p t ih =>
    intro k v h
    cases p with
    | mk k1 v1 =>
      rw [List.lookup_cons] at h
      by_cases hk : k == k1
      · have hkk : k = k1 := beq_iff_eq.mp hk
        simp [hk] at h
        subst hkk; subst h
        exact List.mem_cons_self _ _
      · simp [hk] at h
        exact List.mem_cons_of_mem _ (ih h)

/-- A key absent from every snapshot makes the positive-value collection
empty, without raising. -/
theorem collectPositive_all_absent (metric : String) :
    ∀ L : List Metrics, (∀ snap ∈ L, snap.lookup metric = Option.none) →
      collectPositive metric L = Except.ok [] := by
  intro L
  induction L with
  | nil => intro _; rfl
  | cons h t ih =>
    intro hall
    have hh := hall h (List.mem_cons_self _ _)
    simp only [collectPositive, dictGet, hh]
    exact ih (fun s hs => hall s (List.mem_cons_of_mem _ hs))

/-- C10: a `negative_screen` criterion substitutes `0` for a metric key
entirely absent from `current_metrics` before its equality check, so
with the typical threshold `0` a missing metric makes the criterion pass
with reason 无违规记录 — unlike `_check_simple` (reason 数据缺失) and
every other check type, where a metric missing from the inputs yields
`passed = false`. -/
theorem negative_screen_missing :
    (∀ (c : Criterion) (cur : Metrics) (hist : Option (List Metrics)),
      cur.lookup c.metric = Option.none → c.threshold = PyVal.num 0 →
      check_negative_screen c cur hist =
        Except.ok (CriterionResult.mk c.name c.description true (PyVal.num 0)
          c.threshold "==" (c.importance.getD "critical") "无违规记录")) ∧
    (∀ (c : Criterion) (cur : Metrics),
      cur.lookup c.metric = Option.none →
      check_simple c cur =
        Except.ok (CriterionResult.mk c.name c.description false PyVal.none
          c.threshold c.operator (c.importance.getD "medium") "数据缺失")) ∧
    (∀ (F : FloatOps) (c : Criterion) (cur : Metrics) (hist : Option (List Metrics)),
      c.check_type ∈ (["simple", "consecutive_years", "cagr", "latest_quarter",
        "compare_benchmark", "rating", "historical_percentile", "volatility",
        "valuation_expansion"] : List String) →
      (c.check_type = "consecutive_years" → 1 ≤ c.years) →
      cur.lookup c.metric = Option.none →
      (∀ snap ∈ hist.getD [], snap.lookup c.metric = Option.none ∧
        snap.lookup c.market_cap_metric = Option.none ∧
        snap.lookup c.profit_metric = Option.none) →
      resultPassed (check_criterion F c cur hist) = some false) := by
  refine ⟨?_, ?_, ?_⟩
  · intro c cur hist hl ht
    simp [check_negative_screen, dictGetD, hl, ht, pyEqb, PyVal.asNum]
  · intro c cur hl
    simp [check_simple, dictGet, hl]
  · intro F c cur hist htype hyears hcur hsnap
    simp only [List.mem_cons, List.not_mem_nil, or_false] at htype
    rcases htype with h | h | h | h | h | h | h | h | h
    · -- simple
      simp [check_criterion, h, check_simple, dictGet, hcur, resultPassed]
    · -- consecutive_years
      have hy := hyears h
      cases hist with
      | none =>
        simp [check_criterion, h, check_consecutive_years, resultPassed,
          consecInsufficient]
      | some l =>
        by_cases hguard : (l.isEmpty || decide (l.length < c.years)) = true
        · simp [check_criterion, h, check_consecutive_years, hguard, resultPassed,
            consecInsufficient]
        · cases l with
          | nil => simp at hguard
          | cons a t =>
            obtain ⟨y, hy'⟩ : ∃ y, c.years = y + 1 := ⟨c.years - 1, by omega⟩
            have ha : a.lookup c.metric = Option.none :=
              (hsnap a (List.mem_cons_self _ _)).1
            have hnot : ¬(y + 1 ≤ 0) := by omega
            simp only [Bool.or_eq_true, not_or] at hguard
            have hlen : ¬(t.length < y) := by
              have h2 := hguard.2
              simp only [decide_eq_true_eq, List.length_cons] at h2
              omega
            simp [check_criterion, h, check_consecutive_years, hguard.1, hguard.2,
              hy', List.take_succ_cons, consecutiveScan, dictGet, ha,
              resultPassed, hnot, hlen, List.mapM.loop, pure, Except.pure]
    · -- cagr
      cases hist with
      | none => simp [check_criterion, h, check_cagr, resultPassed, cagrInvalid]
      | some l =>
        by_cases hguard : (l.isEmpty || decide (l.length < c.years)) = true
        · simp [check_criterion, h, check_cagr, hguard, resultPassed, cagrInvalid]
        · simp only [Bool.or_eq_true, not_or, Bool.not_eq_true,
            decide_eq_false_iff_not, not_lt] at hguard
          have hne : l ≠ [] := by
            cases l
            · simp at hguard
            · simp
          have hsd : (if c.years = 0 then l.getLastD [] else l.getD (c.years - 1) []) ∈ l := by
            by_cases h0 : c.years = 0
            · simpa [h0] using getLastD_mem l [] hne
            · have : c.years - 1 < l.length := by
                have := hguard.2
                omega
              simpa [h0] using getD_mem l (c.years - 1) [] this
          have hstart := (hsnap _ (by simpa using hsd)).1
          simp [check_criterion, h, check_cagr, hguard.1, hguard.2, dictGet,
            hstart, resultPassed, cagrInvalid, Nat.not_lt.mpr hguard.2]
    · -- latest_quarter
      simp [check_criterion, h, check_latest_quarter, check_simple, dictGet, hcur,
        resultPassed]
    · -- compare_benchmark
      simp [check_criterion, h, check_compare_benchmark, dictGet, hcur, resultPassed]
    · -- rating
      simp [check_criterion, h, check_rating, dictGet, hcur, resultPassed]
    · -- historical_percentile
      cases hist with
      | none =>
        simp [check_criterion, h, check_historical_percentile, resultPassed,
          percInsufficient]
      | some l =>
        by_cases hguard : (l.isEmpty || decide (l.length < c.years)) = true
        · simp [check_criterion, h, check_historical_percentile, hguard,
            resultPassed, percInsufficient]
        · simp [check_criterion, h, check_historical_percentile, hguard,
            dictGet, hcur, resultPassed, percInsufficient]
    · -- volatility
      cases hist with
      | none =>
        simp [check_criterion, h, check_volatility, resultPassed, volInsufficient]
      | some l =>
        by_cases hguard : (l.isEmpty || decide (l.length < c.years)) = true
        · simp [check_criterion, h, check_volatility, hguard, resultPassed,
            volInsufficient]
        · have hcol : collectPositive c.metric (l.take c.years) = Except.ok [] := by
            apply collectPositive_all_absent
            intro snap hs
            exact (hsnap snap (by simpa using List.take_subset _ _ hs)).1
          simp [check_criterion, h, check_volatility, hguard, hcol, resultPassed,
            volInsufficient]
    · -- valuation_expansion
      cases hist with
      | none =>
        simp [check_criterion, h, check_valuation_expansion, resultPassed,
          valuationInvalid]
      | some l =>
        by_cases hguard : (l.isEmpty || decide (l.length < c.years)) = true
        · simp [check_criterion, h, check_valuation_expansion, hguard,
            resultPassed, valuationInvalid]
        · simp only [Bool.or_eq_true, not_or, Bool.not_eq_true,
            decide_eq_false_iff_not, not_lt] at hguard
          have hne : l ≠ [] := by
            cases l
            · simp at hguard
            · simp
          have hsd : (if c.years = 0 then l.getLastD [] else l.getD (c.years - 1) []) ∈ l := by
            by_cases h0 : c.years = 0
            · simpa [h0] using getLastD_mem l [] hne
            · have : c.years - 1 < l.length := by
                have := hguard.2
                omega
              simpa [h0] using getD_mem l (c.years - 1) [] this
          have hsmc := (hsnap _ (by simpa using hsd)).2.1
          simp [check_criterion, h, check_valuation_expansion, hguard.1, hguard.2,
            dictGet, hsmc, resultPassed, valuationInvalid, Nat.not_lt.mpr hguard.2]

/-- Criterion of the C10 witness: a typical `negative_screen` with
threshold 0. -/
def c10neg : Criterion :=
  Criterion.mk "无违规记录" "近年无监管处罚" "negative_screen" "violation_count"
    (PyVal.num 0) "==" 5 Option.none (Rat.divInt 1 40) [] "median"
    "market_cap" "net_profit"

/-- Criterion of the C10 witness contrast: a `simple` check on the same
absent metric. -/
def c10simple : Criterion :=
  Criterion.mk "违规计数检查" "违规次数为零" "simple" "violation_count"
    (PyVal.num 0) "==" 5 Option.none (Rat.divInt 1 40) [] "median"
    "market_cap" "net_profit"

/-- Witness for C10: with `violation_count` absent from the metrics map,
the negative screen passes with 无违规记录 while the simple check fails
with 数据缺失. -/
theorem negative_screen_missing_witness :
    check_negative_screen c10neg [("roe", PyVal.num 1)] Option.none =
      Except.ok (CriterionResult.mk "无违规记录" "近年无监管处罚" true (PyVal.num 0)
        (PyVal.num 0) "==" "critical" "无违规记录") ∧
    check_simple c10simple [("roe", PyVal.num 1)] =
      Except.ok (CriterionResult.mk "违规计数检查" "违规次数为零" false PyVal.none
        (PyVal.num 0) "==" "medium" "数据缺失") :=
  ⟨negative_screen_missing.1 c10neg [("roe", PyVal.num 1)] Option.none rfl rfl,
   negative_screen_missing.2.1 c10simple [("roe", PyVal.num 1)] rfl⟩

/-- Claim-side streak for C3, from the claim's words: within the `years`
most recent history entries, the length of the maximal
contiguous-from-most-recent run whose values are present and satisfy the
comparison (the run stops at the first failure or missing value). -/
def claimStreak (metric operator : String) (threshold : PyVal)
    (l : List Metrics) (years : Nat) : Nat :=
  ((l.take years).takeWhile (fun h =>
    match dictGet h metric with
    | PyVal.none => false
    | v => compare_op v operator threshold)).length

/-- The loop of `_check_consecutive_years` counts exactly the
take-while-prefix length. -/
theorem consecutiveScan_count (metric operator : String) (threshold : PyVal) :
    ∀ L : List Metrics, (consecutiveScan metric operator threshold L).1 =
      (L.takeWhile (fun h =>
        match dictGet h metric with
        | PyVal.none => false
        | v => compare_op v operator threshold)).length := by
  intro L
  induction L with
  | nil => rfl
  | cons a t ih =>
    simp only [List.takeWhile_cons]
    cases hv : dictGet a metric with
    | none => simp [consecutiveScan, hv]
    | num q =>
      by_cases hc : compare_op (PyVal.num q) operator threshold = true
      · simp [consecutiveScan, hv, hc, ih]
      · simp [consecutiveScan, hv, hc]
    | str s =>
      by_cases hc : compare_op (PyVal.str s) operator threshold = true
      · simp [consecutiveScan, hv, hc, ih]
      · simp [consecutiveScan, hv, hc]
    | bool b =>
      by_cases hc : compare_op (PyVal.bool b) operator threshold = true
      · simp [consecutiveScan, hv, hc, ih]
      · simp [consecutiveScan, hv, hc]

/-- C3: for a `consecutive_years` criterion with sufficient history, the
counted streak is the contiguous-from-most-recent run within
`history[0..years)` stopping at the first failure, and the criterion
passes iff that streak equals the required `years`; with fewer history
entries than `years` it fails with the insufficient-history record. -/
theorem consecutive_years_streak :
    (∀ (c : Criterion) (cur : Metrics) (l : List Metrics),
      l ≠ [] → c.years ≤ l.length →
      ∀ r, check_consecutive_years c cur (some l) = Except.ok r →
        r.actual_value =
          PyVal.num ((claimStreak c.metric c.operator c.threshold l c.years : ℚ)) ∧
        r.passed =
          decide (claimStreak c.metric c.operator c.threshold l c.years = c.years)) ∧
    (∀ (c : Criterion) (cur : Metrics) (hist : Option (List Metrics)),
      (hist.getD []).length < c.years →
      check_consecutive_years c cur hist = Except.ok (consecInsufficient c) ∧
      (consecInsufficient c).passed = false) := by
  constructor
  · intro c cur l hne hlen r hr
    have h1 : l.isEmpty = false := by
      cases l
      · exact absurd rfl hne
      · rfl
    have h2 : ¬(l.length < c.years) := Nat.not_lt.mpr hlen
    have hg : ¬((l.isEmpty || decide (l.length < c.years)) = true) := by
      simp [h1, h2]
    simp only [check_consecutive_years, if_neg hg] at hr
    have hcount := consecutiveScan_count c.metric c.operator c.threshold
      (l.take c.years)
    have hbound : claimStreak c.metric c.operator c.threshold l c.years ≤ c.years := by
      unfold claimStreak
      exact le_trans (List.takeWhile_sublist _).length_le (l.length_take_le _)
    cases hm : (((consecutiveScan c.metric c.operator c.threshold
        (l.take c.years)).2.take 3).mapM (fun v => format_value v c.metric)) with
    | error e => rw [hm] at hr; cases hr
    | ok fvs =>
      rw [hm] at hr
      have hr' := (Except.ok.inj hr).symm
      subst hr'
      constructor
      · simp [claimStreak, hcount]
      · show decide ((consecutiveScan c.metric c.operator c.threshold
            (l.take c.years)).1 ≥ c.years) = _
        rw [hcount, decide_eq_decide]
        unfold claimStreak at hbound ⊢
        omega
  · intro c cur hist hshort
    cases hist with
    | none => exact ⟨rfl, rfl⟩
    | some l =>
      simp only [Option.getD_some] at hshort
      exact ⟨by simp [check_consecutive_years, hshort], rfl⟩

/-- Criterion of the C3 witness: 4 consecutive years of positive `x`. -/
def c3crit : Criterion :=
  Criterion.mk "连续为正" "指标连续4年为正" "consecutive_years" "x" (PyVal.num 0)
    ">" 4 Option.none (Rat.divInt 1 40) [] "median" "market_cap" "net_profit"

/-- History of the C3 witness: pass, fail, pass, pass (most recent
first). -/
def c3hist : List Metrics :=
  [[("x", PyVal.num 1)], [("x", PyVal.num 0)], [("x", PyVal.num 1)],
   [("x", PyVal.num 1)]]

/-- Witness for C3, the claim's example: history pass/fail/pass/pass with
`years = 4` yields a streak of exactly 1 (not 3) and the criterion
fails. -/
theorem consecutive_years_streak_witness :
    claimStreak "x" ">" (PyVal.num 0) c3hist 4 = 1 ∧
    resultActual (check_consecutive_years c3crit [] (some c3hist)) =
      some (PyVal.num 1) ∧
    resultPassed (check_consecutive_years c3crit [] (some c3hist)) = some false := by
  have hs : claimStreak "x" ">" (PyVal.num 0) c3hist 4 = 1 := by decide
  obtain ⟨r, hr⟩ : ∃ r, check_consecutive_years c3crit [] (some c3hist) =
      Except.ok r := ⟨_, rfl⟩
  have h := consecutive_years_streak.1 c3crit [] c3hist (by decide) (by decide) r hr
  refine ⟨hs, ?_, ?_⟩
  · rw [hr]
    simp only [resultActual, Option.some.injEq]
    rw [h.1]
    simp [c3crit, hs]
  · rw [hr]
    simp only [resultPassed, Option.some.injEq]
    rw [h.2]
    simp [c3crit, hs]

/-- Claim-side group check for C5: an empty importance group is vacuously
satisfied; a non-empty one must reach the minimum pass rate. -/
def groupRateOk (g : List CriterionResult) (minRate : ℚ) : Bool :=
  g.isEmpty ||
    decide (((g.filter (fun c => c.passed)).length : ℚ) / (g.length : ℚ) ≥ minRate)

/-- Claim-side tolerance verdict for C5, from the claim's words: if
`critical_must_pass` (default true) and any critical-importance criterion
fails, the category fails regardless of the other groups; otherwise it
passes iff the high group reaches `high_min_pass_rate` (default 0.8) and
the medium group reaches `medium_min_pass_rate` (default 0.6). -/
def toleranceClaim (crs : List CriterionResult) (tol : Tolerance) : Bool :=
  if tol.critical_must_pass.getD true &&
      (crs.filter (fun c => c.importance == "critical")).any (fun c => !c.passed) then
    false
  else
    groupRateOk (crs.filter (fun c => c.importance == "high"))
      (tol.high_min_pass_rate.getD (4/5)) &&
    groupRateOk (crs.filter (fun c => c.importance == "medium"))
      (tol.medium_min_pass_rate.getD (3/5))

/-- Some criterion fails iff not all pass. -/
theorem any_not_eq_not_all (L : List CriterionResult) :
    (L.any fun c => !c.passed) = !(L.all fun c => c.passed) := by
  induction L with
  | nil => rfl
  | cons a t ih => simp [List.any_cons, List.all_cons, ih, Bool.not_and]

/-- Shape of the two pass-rate branches shared by the source and the
claim-side verdict. -/
theorem rateBranch (e1 e2 : Bool) (p1 p2 : Prop) [Decidable p1] [Decidable p2] :
    (if !e1 && decide ¬p1 then false else if !e2 && decide ¬p2 then false else true) =
    ((e1 || decide p1) && (e2 || decide p2)) := by
  cases e1 <;> cases e2 <;> by_cases h1 : p1 <;> by_cases h2 : p2 <;> simp [h1, h2]

/-- The source's tolerance verdict agrees with the claim-side one on all
inputs. -/
theorem check_with_tolerance_eq (crs : List CriterionResult) (tol : Tolerance) :
    check_with_tolerance crs tol = toleranceClaim crs tol := by
  simp only [check_with_tolerance, toleranceClaim, groupRateOk,
    ← any_not_eq_not_all]
  by_cases hA : (tol.critical_must_pass.getD true &&
      (crs.filter (fun c => c.importance == "critical")).any (fun c => !c.passed)) = true
  · simp only [if_pos hA]
  · simp only [if_neg hA]
    have hflip : ∀ r m : ℚ, (r < m) ↔ ¬(r ≥ m) := fun r m => lt_iff_not_ge r m
    simp only [hflip]
    exact rateBranch _ _ _ _

/-- C5: for a non-required screening category the verdict is the
claim-side tolerance policy: with `critical_must_pass` (default true) any
failed critical criterion fails the category regardless of the other
groups; otherwise the category passes iff the high group's pass rate
reaches `high_min_pass_rate` (default 0.8) and the medium group's
reaches `medium_min_pass_rate` (default 0.6), an empty group being
vacuously satisfied. -/
theorem tolerance_verdict :
    (∀ (crs : List CriterionResult) (tol : Tolerance),
      check_with_tolerance crs tol = toleranceClaim crs tol) ∧
    (∀ (F : FloatOps) (tol : Tolerance) (cat : ScreeningCategory) (cur : Metrics)
        (hist : Option (List Metrics)) (r : CategoryResult),
      cat.required = false →
      check_category F tol cat cur hist = Except.ok r →
      r.passed = toleranceClaim r.criteria_results tol) := by
  constructor
  · exact check_with_tolerance_eq
  · intro F tol cat cur hist r hreq hok
    unfold check_category at hok
    cases hm : cat.criteria.mapM (fun c => check_criterion F c cur hist) with
    | error e => rw [hm] at hok; cases hok
    | ok rs =>
      rw [hm] at hok
      have hr := (Except.ok.inj hok).symm
      subst hr
      simp [hreq, check_with_tolerance_eq]

/-- Tolerance record of the witnesses: a config without a `tolerance`
section (every key takes its default). -/
def tol0 : Tolerance := Tolerance.mk Option.none Option.none Option.none Option.none

/-- Float operations for witnesses: `fpow` restricted to the exponent-one
and base-zero-or-one cases the witnesses exercise, where Python's `**` is
exact. -/
def idFloatOps : FloatOps := FloatOps.mk (fun b _ => b) (fun v => v)

/-- Category for the C5 witness: non-required, one critical
negative-screen criterion that passes. -/
def cat5 : ScreeningCategory :=
  ScreeningCategory.mk "公司治理" "治理与合规" false
    [Criterion.mk "无违规" "无监管处罚记录" "negative_screen" "violation_count"
      (PyVal.num 0) "==" 5 Option.none (Rat.divInt 1 40) [] "median"
      "market_cap" "net_profit"]

/-- Category result the engine computes for `cat5` on empty metrics. -/
def c5res : CategoryResult :=
  CategoryResult.mk "公司治理" "治理与合规" false true
    [CriterionResult.mk "无违规" "无监管处罚记录" true (PyVal.num 0) (PyVal.num 0)
      "==" "critical" "无违规记录"]

/-- Witness for C5: the non-required category's verdict equals the
claim-side tolerance policy at a concrete input. -/
theorem tolerance_verdict_witness :
    c5res.passed = toleranceClaim c5res.criteria_results tol0 :=
  tolerance_verdict.2 idFloatOps tol0 cat5 [] Option.none c5res rfl rfl

/-- Claim-side mean category pass rate for C6. -/
def meanPassRate (cats : List CategoryResult) : ℚ :=
  (cats.map (fun c => c.pass_rate)).sum / (cats.length : ℚ)

/-- All-required-pass as a membership statement. -/
theorem required_filter_all (cats : List CategoryResult) :
    ((cats.filter (fun c => c.required)).all (fun c => c.passed) = true) ↔
      (∀ c ∈ cats, c.required = true → c.passed = true) := by
  simp only [List.all_eq_true, List.mem_filter]
  constructor
  · intro h c hc hr
    exact h c ⟨hc, hr⟩
  · intro h c hc
    exact h c hc.1 hc.2

/-- C6: the overall verdict is `passed = true` with result type `pass`
iff every required category passes; otherwise `passed = false` with
result type `partial` when `allow_partial_pass` holds and the mean of all
categories' pass rates is at least 0.70, and `fail` otherwise. -/
theorem overall_verdict :
    (∀ (tol : Tolerance) (cats : List CategoryResult),
      determine_result tol cats = (true, "pass") ↔
        ∀ c ∈ cats, c.required = true → c.passed = true) ∧
    (∀ (tol : Tolerance) (cats : List CategoryResult),
      ¬(∀ c ∈ cats, c.required = true → c.passed = true) →
      determine_result tol cats =
        (false, if tol.allow_partial_pass.getD false ∧ meanPassRate cats ≥ 7/10
                then "partial" else "fail")) := by
  constructor
  · intro tol cats
    by_cases hall : ((cats.filter (fun c => c.required)).all (fun c => c.passed)) = true
    · constructor
      · intro _
        exact (required_filter_all cats).mp hall
      · intro _
        simp [determine_result, hall]
    · have hr : ¬(∀ c ∈ cats, c.required = true → c.passed = true) :=
        fun hc => hall ((required_filter_all cats).mpr hc)
      constructor
      · intro hd
        simp only [determine_result, if_neg hall] at hd
        by_cases hp : tol.allow_partial_pass.getD false = true
        · rw [if_pos hp] at hd
          by_cases hm : (cats.map (fun c => c.pass_rate)).sum / (cats.length : ℚ) ≥ 7/10
          · rw [if_pos hm] at hd
            exact absurd (congrArg Prod.fst hd) (by simp)
          · rw [if_neg hm] at hd
            exact absurd (congrArg Prod.fst hd) (by simp)
        · rw [if_neg hp] at hd
          exact absurd (congrArg Prod.fst hd) (by simp)
      · intro hc
        exact absurd hc hr
  · intro tol cats hna
    have hall : ¬(((cats.filter (fun c => c.required)).all (fun c => c.passed)) = true) :=
      fun h => hna ((required_filter_all cats).mp h)
    simp only [determine_result, if_neg hall]
    by_cases hp : tol.allow_partial_pass.getD false = true
    · by_cases hm : (cats.map (fun c => c.pass_rate)).sum / (cats.length : ℚ) ≥ 7/10
      · simp [hp, hm, meanPassRate]
      · simp [hp, hm, meanPassRate]
    · simp [hp]

/-- Category results for the C6 witness: the single required category
passed. -/
def cats6 : List CategoryResult :=
  [CategoryResult.mk "硬性门槛" "必须满足的条件" true true []]

/-- Witness for C6: with every required category passing, the verdict is
`(true, "pass")`. -/
theorem overall_verdict_witness :
    determine_result tol0 cats6 = (true, "pass") :=
  (overall_verdict.1 tol0 cats6).mpr (by decide)

/-- C2 amended: for a `cagr` criterion with sufficient history and valid
numeric endpoints the check computes
`(history[0][metric] / history[years-1][metric]) ** (1/years) - 1` and
compares it to the threshold with `>` unconditionally — the criterion's
configured `operator` is never read and the result reports operator
`">"`; the check fails (passed = false, without raising) whenever either
endpoint is missing, the start value is at most 0, or the history is
shorter than `years`. -/
theorem cagr_semantics :
    (∀ (F : FloatOps) (c : Criterion) (l : List Metrics) (s e t : ℚ),
      1 ≤ c.years → c.years ≤ l.length →
      dictGet (l.getD (c.years - 1) []) c.metric = PyVal.num s →
      dictGet (l.getD 0 []) c.metric = PyVal.num e →
      0 < s → 0 ≤ e / s → c.threshold = PyVal.num t →
      check_cagr F c (some l) =
        Except.ok (CriterionResult.mk c.name c.description
          (decide (F.fpow (e / s) (1 / (c.years : ℚ)) - 1 > t))
          (PyVal.num (F.fpow (e / s) (1 / (c.years : ℚ)) - 1)) c.threshold ">"
          (c.importance.getD "medium")
          (toString c.years ++ "年CAGR: "
            ++ toString ((F.fpow (e / s) (1 / (c.years : ℚ)) - 1) * 100) ++ "%"))) ∧
    (∀ (F : FloatOps) (c : Criterion) (hist : Option (List Metrics)),
      (hist.getD []).length < c.years →
      check_cagr F c hist = Except.ok (cagrInvalid c
        ("历史数据不足（需要" ++ toString c.years ++ "年）"))) ∧
    (∀ (F : FloatOps) (c : Criterion) (l : List Metrics),
      1 ≤ c.years → c.years ≤ l.length →
      (dictGet (l.getD (c.years - 1) []) c.metric = PyVal.none ∨
       dictGet (l.getD 0 []) c.metric = PyVal.none) →
      check_cagr F c (some l) = Except.ok (cagrInvalid c "数据缺失或无效")) ∧
    (∀ (F : FloatOps) (c : Criterion) (l : List Metrics) (s : ℚ),
      1 ≤ c.years → c.years ≤ l.length →
      dictGet (l.getD (c.years - 1) []) c.metric = PyVal.num s → s ≤ 0 →
      check_cagr F c (some l) = Except.ok (cagrInvalid c "数据缺失或无效")) ∧
    (∀ (c : Criterion) (rsn : String), (cagrInvalid c rsn).passed = false) := by
  have hprep : ∀ (c : Criterion) (l : List Metrics), 1 ≤ c.years → c.years ≤ l.length →
      ¬((l.isEmpty || decide (l.length < c.years)) = true) ∧ ¬(c.years = 0) := by
    intro c l hy hlen
    have hne : l ≠ [] := by
      intro h
      subst h
      simp at hlen
      omega
    have h1 : l.isEmpty = false := by
      cases l
      · exact absurd rfl hne
      · rfl
    exact ⟨by simp [h1, Nat.not_lt.mpr hlen], by omega⟩
  have hguard : ∀ (c : Criterion) (l : List Metrics), 1 ≤ c.years → c.years ≤ l.length →
      ¬(l = [] ∨ l.length < c.years) := by
    intro c l hy hlen
    push_neg
    refine ⟨?_, hlen⟩
    intro h
    subst h
    simp at hlen
    omega
  refine ⟨?_, ?_, ?_, ?_, fun c rsn => rfl⟩
  · intro F c l s e t hy hlen hs he hspos hratio ht
    have hg := hguard c l hy hlen
    have h0 : ¬(c.years = 0) := by omega
    have hnle : ¬(s ≤ 0) := not_le.mpr hspos
    have hnlt : ¬(e / s < 0) := not_lt.mpr hratio
    simp only [List.getD_eq_getElem?_getD] at hs he
    simp [check_cagr, hg, h0, hs, he, pyLe, pyGt, PyVal.asNum, hnle, hnlt, ht]
  · intro F c hist hshort
    cases hist with
    | none => rfl
    | some l =>
      simp only [Option.getD_some] at hshort
      simp [check_cagr, hshort]
  · intro F c l hy hlen hdisj
    have hg := hguard c l hy hlen
    have h0 : ¬(c.years = 0) := by omega
    rcases hdisj with hstart | hend
    · simp only [List.getD_eq_getElem?_getD] at hstart
      simp [check_cagr, hg, h0, hstart]
    · simp only [List.getD_eq_getElem?_getD] at hend
      cases hsv : dictGet (l[c.years - 1]?.getD []) c.metric with
      | none => simp [check_cagr, hg, h0, hsv]
      | num q => simp [check_cagr, hg, h0, hsv, hend]
      | str s => simp [check_cagr, hg, h0, hsv, hend]
      | bool b => simp [check_cagr, hg, h0, hsv, hend]
  · intro F c l s hy hlen hs hsle
    have hg := hguard c l hy hlen
    have h0 : ¬(c.years = 0) := by omega
    simp only [List.getD_eq_getElem?_getD] at hs
    cases hev : dictGet (l[0]?.getD []) c.metric with
    | none => simp [check_cagr, hg, h0, hs, hev]
    | num q => simp [check_cagr, hg, h0, hs, hev, pyLe, PyVal.asNum, hsle]
    | str t => simp [check_cagr, hg, h0, hs, hev, pyLe, PyVal.asNum, hsle]
    | bool b => simp [check_cagr, hg, h0, hs, hev, pyLe, PyVal.asNum, hsle]

/-- Criterion of the C2 witness: a two-year revenue CAGR check. -/
def c2wcrit : Criterion :=
  Criterion.mk "营收增长" "营收复合增长检查" "cagr" "revenue" (PyVal.num 0) ">" 2
    Option.none (Rat.divInt 1 40) [] "median" "market_cap" "net_profit"

/-- History of the C2 witness: revenue 0 now, 1 two years ago. -/
def c2whist : List Metrics :=
  [[("revenue", PyVal.num 0)], [("revenue", PyVal.num 1)]]

/-- Witness for C2 (amended): on valid endpoints the check returns the
CAGR value compared with `>` and reports operator `">"`. -/
theorem cagr_semantics_witness :
    check_cagr idFloatOps c2wcrit (some c2whist) =
      Except.ok (CriterionResult.mk "营收增长" "营收复合增长检查"
        (decide (idFloatOps.fpow ((0 : ℚ) / 1) (1 / ((2 : ℕ) : ℚ)) - 1 > 0))
        (PyVal.num (idFloatOps.fpow ((0 : ℚ) / 1) (1 / ((2 : ℕ) : ℚ)) - 1))
        (PyVal.num 0) ">" "medium"
        (toString (2 : ℕ) ++ "年CAGR: "
          ++ toString ((idFloatOps.fpow ((0 : ℚ) / 1) (1 / ((2 : ℕ) : ℚ)) - 1) * 100)
          ++ "%")) :=
  cagr_semantics.1 idFloatOps c2wcrit c2whist 1 0 0 (by decide) (by decide) rfl rfl
    (by decide) (by simp) rfl

/-- Criterion of the C2 counterexample: a `cagr` criterion whose
configured operator is `"<="`. -/
def c2crit : Criterion :=
  Criterion.mk "估值回落" "CAGR不超过阈值" "cagr" "revenue" (PyVal.num 1) "<=" 1
    Option.none (Rat.divInt 1 40) [] "median" "market_cap" "net_profit"

/-- History of the C2 counterexample: one year of flat revenue, so the
CAGR is 0. -/
def c2hist : List Metrics := [[("revenue", PyVal.num 1)]]

/-- C2 counterexample: the criterion configures operator `"<="` and its
CAGR (0) satisfies `0 <= 1`, so the claim predicts `passed = true`; the
code compares with `>` regardless, fails the criterion and reports
operator `">"`. -/
theorem cagr_operator_ignored :
    c2crit.operator = "<=" ∧
    resultPassed (check_cagr idFloatOps c2crit (some c2hist)) = some false ∧
    resultOperator (check_cagr idFloatOps c2crit (some c2hist)) = some ">" ∧
    resultActual (check_cagr idFloatOps c2crit (some c2hist)) =
      some (PyVal.num ((1 : ℚ) / 1 - 1)) ∧
    compare_op (PyVal.num ((1 : ℚ) / 1 - 1)) c2crit.operator c2crit.threshold = true := by
  refine ⟨rfl, ?_, ?_, ?_, ?_⟩
  · norm_num [check_cagr, c2crit, c2hist, dictGet, pyLe, pyGt, PyVal.asNum,
      idFloatOps, resultPassed, List.lookup]
  · norm_num [check_cagr, c2crit, c2hist, dictGet, pyLe, pyGt, PyVal.asNum,
      idFloatOps, resultOperator, List.lookup]
  · norm_num [check_cagr, c2crit, c2hist, dictGet, pyLe, pyGt, PyVal.asNum,
      idFloatOps, resultActual, List.lookup]
  · have h : ((1 : ℚ) / 1 - 1) = 0 := by norm_num
    rw [h]
    decide

/-- Whether an `Except` computation returned (did not raise). -/
def exceptOk {α : Type} : Except String α → Bool
  | Except.ok _ => true
  | Except.error _ => false

/-- A returned computation yields a value. -/
theorem exceptOk_exists {α : Type} {e : Except String α} (h : exceptOk e = true) :
    ∃ y, e = Except.ok y := by
  cases e with
  | ok y => exact ⟨y, rfl⟩
  | error msg => simp [exceptOk] at h

/-- Well-typed current-metrics value: a number or missing. -/
def niceValB : PyVal → Bool
  | PyVal.none => true
  | PyVal.num _ => true
  | _ => false

/-- Well-typed history value: missing or a nonnegative number (a
negative time-series value can reach the fractional power of the CAGR
checks, whose complex result raises at the following comparison). -/
def niceNNValB : PyVal → Bool
  | PyVal.none => true
  | PyVal.num q => decide (0 ≤ q)
  | _ => false

/-- All current-metrics values are numbers or missing. -/
def niceMetricsB (m : Metrics) : Bool := m.all (fun p => niceValB p.2)

/-- All values of one history snapshot are missing or nonnegative. -/
def niceSnapB (m : Metrics) : Bool := m.all (fun p => niceNNValB p.2)

/-- All history snapshots are well typed. -/
def niceHistB : Option (List Metrics) → Bool
  | Option.none => true
  | some l => l.all niceSnapB

/-- Config well-formedness for the amended C1: the CAGR-style checks need
a positive `years` (`1 / years` raises `ZeroDivisionError` otherwise — a
config-level problem), and a `cagr` criterion needs a numeric threshold
because its `cagr > threshold` comparison is not guarded. -/
def niceCritB (c : Criterion) : Bool :=
  if c.check_type == "cagr" then
    decide (1 ≤ c.years) &&
      (match c.threshold with
       | PyVal.num _ => true
       | _ => false)
  else if c.check_type == "valuation_expansion" then decide (1 ≤ c.years)
  else true

/-- Every criterion of the config is well formed. -/
def niceConfigB (cfg : ScreeningConfig) : Bool :=
  cfg.categories.all (fun cat => cat.criteria.all niceCritB)

/-- A history-grade value is also metrics-grade. -/
theorem niceNN_imp_nice {v : PyVal} (h : niceNNValB v = true) : niceValB v = true := by
  cases v <;> simp_all [niceNNValB, niceValB]

/-- Lookup in a well-typed metrics map yields a well-typed value. -/
theorem niceVal_dictGet {m : Metrics} (h : niceMetricsB m = true) (k : String) :
    niceValB (dictGet m k) = true := by
  unfold dictGet
  cases hl : m.lookup k with
  | none => rfl
  | some v => exact List.all_eq_true.mp h _ (lookup_mem hl)

/-- Lookup in a well-typed snapshot yields a history-grade value. -/
theorem niceNN_dictGet {m : Metrics} (h : niceSnapB m = true) (k : String) :
    niceNNValB (dictGet m k) = true := by
  unfold dictGet
  cases hl : m.lookup k with
  | none => rfl
  | some v => exact List.all_eq_true.mp h _ (lookup_mem hl)

/-- Case split on a metrics-grade value. -/
theorem niceVal_elim {v : PyVal} (h : niceValB v = true) :
    v = PyVal.none ∨ ∃ q, v = PyVal.num q := by
  cases v <;> simp_all [niceValB]

/-- Case split on a history-grade value. -/
theorem niceNNVal_elim {v : PyVal} (h : niceNNValB v = true) :
    v = PyVal.none ∨ ∃ q, v = PyVal.num q ∧ 0 ≤ q := by
  cases v <;> simp_all [niceNNValB]

/-- Formatting never raises on a number or missing value. -/
theorem format_value_ok {v : PyVal} (h : niceValB v = true) (n : String) :
    ∃ s, format_value v n = Except.ok s := by
  rcases niceVal_elim h with rfl | ⟨q, rfl⟩
  · exact ⟨"N/A", rfl⟩
  · by_cases hc : ((strContains n "rate" || strContains n "margin"
        || strContains n "ratio") && !strContains n "debt") = true
    · exact ⟨toString (q * 100) ++ "%", by simp [format_value, formatPct, hc]⟩
    · exact ⟨toString q, by simp [format_value, hc]⟩

/-- Sequencing a list of returning computations returns, preserving the
length. -/
theorem mapM_ok {α β : Type} (f : α → Except String β) :
    ∀ l : List α, (∀ x ∈ l, ∃ y, f x = Except.ok y) →
      ∃ ys, l.mapM f = Except.ok ys ∧ ys.length = l.length := by
  intro l
  induction l with
  | nil => exact fun _ => ⟨[], rfl, rfl⟩
  | cons a t ih =>
    intro h
    obtain ⟨y, hy⟩ := h a (List.mem_cons_self _ _)
    obtain ⟨ys, hys, hlen⟩ := ih (fun x hx => h x (List.mem_cons_of_mem _ hx))
    refine ⟨y :: ys, ?_, by simp [hlen]⟩
    rw [List.mapM_cons, hy, hys]
    rfl

/-- Sequencing returning computations whose results project as required. -/
theorem mapM_ok_map {α β γ : Type} (f : α → Except String β) (g : β → γ) (h : α → γ) :
    ∀ l : List α, (∀ x ∈ l, ∃ y, f x = Except.ok y ∧ g y = h x) →
      ∃ ys, l.mapM f = Except.ok ys ∧ ys.map g = l.map h := by
  intro l
  induction l with
  | nil => exact fun _ => ⟨[], rfl, rfl⟩
  | cons a t ih =>
    intro hyp
    obtain ⟨y, hy, hg⟩ := hyp a (List.mem_cons_self _ _)
    obtain ⟨ys, hys, hmap⟩ := ih (fun x hx => hyp x (List.mem_cons_of_mem _ hx))
    refine ⟨y :: ys, ?_, by simp [hg, hmap]⟩
    rw [List.mapM_cons, hy, hys]
    rfl

/-- The values collected by the consecutive-years loop all come from the
scanned snapshots. -/
theorem consecutiveScan_values (metric operator : String) (threshold : PyVal) :
    ∀ L : List Metrics, (∀ snap ∈ L, niceSnapB snap = true) →
      ∀ v ∈ (consecutiveScan metric operator threshold L).2, niceValB v = true := by
  intro L
  induction L with
  | nil => intro _ v hv; simp [consecutiveScan] at hv
  | cons a t ih =>
    intro h v hv
    have ha : niceNNValB (dictGet a metric) = true :=
      niceNN_dictGet (h a (List.mem_cons_self _ _)) metric
    rcases niceNNVal_elim ha with hd | ⟨q, hd, _⟩
    · rw [show consecutiveScan metric operator threshold (a :: t) = (0, []) from by
        simp [consecutiveScan, hd]] at hv
      simp at hv
    · by_cases hc : compare_op (PyVal.num q) operator threshold = true
      · rw [show consecutiveScan metric operator threshold (a :: t) =
            ((consecutiveScan metric operator threshold t).1 + 1,
              PyVal.num q :: (consecutiveScan metric operator threshold t).2) from by
          simp [consecutiveScan, hd, hc]] at hv
        rcases List.mem_cons.mp hv with rfl | hv
        · rfl
        · exact ih (fun s hs => h s (List.mem_cons_of_mem _ hs)) v hv
      · rw [show consecutiveScan metric operator threshold (a :: t) =
            (0, [PyVal.num q]) from by simp [consecutiveScan, hd, hc]] at hv
        rcases List.mem_cons.mp hv with rfl | hv
        · rfl
        · simp at hv

/-- The positive-value collection returns on well-typed snapshots and
yields only positive values. -/
theorem collectPositive_ok (metric : String) :
    ∀ L : List Metrics, (∀ snap ∈ L, niceSnapB snap = true) →
      ∃ qs, collectPositive metric L = Except.ok qs ∧ ∀ q ∈ qs, 0 < q := by
  intro L
  induction L with
  | nil => exact fun _ => ⟨[], rfl, by simp⟩
  | cons a t ih =>
    intro h
    obtain ⟨qs, hqs, hpos⟩ := ih (fun s hs => h s (List.mem_cons_of_mem _ hs))
    have ha := niceNN_dictGet (h a (List.mem_cons_self _ _)) metric
    rcases niceNNVal_elim ha with hd | ⟨q, hd, _⟩
    · exact ⟨qs, by simp [collectPositive, hd, hqs], hpos⟩
    · by_cases hqpos : 0 < q
      · refine ⟨q :: qs, by simp [collectPositive, hd, PyVal.asNum, hqs, hqpos], ?_⟩
        intro x hx
        rcases List.mem_cons.mp hx with rfl | hx
        · exact hqpos
        · exact hpos x hx
      · exact ⟨qs, by simp [collectPositive, hd, PyVal.asNum, hqs, hqpos], hpos⟩

/-- The mean of a nonempty list of positive rationals is positive. -/
theorem meanQ_pos {l : List ℚ} (hne : l ≠ []) (hpos : ∀ q ∈ l, 0 < q) :
    0 < meanQ l := by
  unfold meanQ
  apply div_pos
  · exact List.sum_pos l hpos hne
  · exact_mod_cast List.length_pos.mpr hne

/-- `_check_simple` returns on well-typed current metrics. -/
theorem check_simple_ok (c : Criterion) (cur : Metrics)
    (h : niceMetricsB cur = true) : exceptOk (check_simple c cur) = true := by
  rcases niceVal_elim (niceVal_dictGet h c.metric) with hd | ⟨q, hd⟩
  · simp [check_simple, hd, exceptOk]
  · obtain ⟨s, hs⟩ := format_value_ok (v := PyVal.num q) rfl c.metric
    simp [check_simple, hd, hs, exceptOk]

/-- `_check_consecutive_years` returns on well-typed history. -/
theorem check_consecutive_years_ok (c : Criterion) (cur : Metrics)
    (hist : Option (List Metrics)) (hh : niceHistB hist = true) :
    exceptOk (check_consecutive_years c cur hist) = true := by
  cases hist with
  | none => rfl
  | some l =>
    by_cases hg : (l.isEmpty || decide (l.length < c.years)) = true
    · simp [check_consecutive_years, hg, exceptOk]
    · have hsnaps : ∀ snap ∈ l, niceSnapB snap = true := by
        simpa [niceHistB, List.all_eq_true] using hh
      have hv : ∀ v ∈ ((consecutiveScan c.metric c.operator c.threshold
          (l.take c.years)).2.take 3), niceValB v = true := fun v hvm =>
        consecutiveScan_values c.metric c.operator c.threshold (l.take c.years)
          (fun s hs => hsnaps s (List.take_subset _ _ hs)) v
          (List.take_subset _ _ hvm)
      obtain ⟨ys, hys, _⟩ := mapM_ok (fun v => format_value v c.metric) _
        (fun v hvm => format_value_ok (hv v hvm) c.metric)
      unfold List.mapM at hys
      simp [check_consecutive_years, hg, hys, exceptOk]

/-- `_check_cagr` returns on well-typed history given a positive `years`
and a numeric threshold. -/
theorem check_cagr_ok (F : FloatOps) (c : Criterion) (hist : Option (List Metrics))
    (hh : niceHistB hist = true) (hy : 1 ≤ c.years)
    (ht : ∃ t, c.threshold = PyVal.num t) :
    exceptOk (check_cagr F c hist) = true := by
  cases hist with
  | none => rfl
  | some l =>
    by_cases hg : (l.isEmpty || decide (l.length < c.years)) = true
    · simp [check_cagr, hg, exceptOk]
    · have hsnaps : ∀ snap ∈ l, niceSnapB snap = true := by
        simpa [niceHistB, List.all_eq_true] using hh
      have hlen : c.years ≤ l.length := by
        simp only [Bool.or_eq_true, not_or, decide_eq_true_eq] at hg
        omega
      have h0 : ¬(c.years = 0) := by omega
      have hsmem : l.getD (c.years - 1) [] ∈ l := getD_mem l _ [] (by omega)
      have hemem : l.getD 0 [] ∈ l := getD_mem l 0 [] (by omega)
      have hsv := niceNN_dictGet (hsnaps _ hsmem) c.metric
      have hev := niceNN_dictGet (hsnaps _ hemem) c.metric
      rcases niceNNVal_elim hsv with hs | ⟨s, hs, hsnn⟩ <;>
        simp only [List.getD_eq_getElem?_getD] at *
      · simp [check_cagr, hg, h0, hs, exceptOk]
      · rcases niceNNVal_elim hev with he | ⟨e, he, henn⟩
        · simp [check_cagr, hg, h0, hs, he, exceptOk]
        · by_cases hsle : s ≤ 0
          · simp [check_cagr, hg, h0, hs, he, pyLe, PyVal.asNum, hsle, exceptOk]
          · have hratio : ¬(e / s < 0) :=
              not_lt.mpr (div_nonneg henn (le_of_lt (lt_of_not_le hsle)))
            obtain ⟨t, htq⟩ := ht
            simp [check_cagr, hg, h0, hs, he, pyLe, pyGt, PyVal.asNum, hsle,
              hratio, htq, exceptOk]

/-- `_check_compare_benchmark` returns on well-typed current metrics. -/
theorem check_compare_benchmark_ok (c : Criterion) (cur : Metrics)
    (h : niceMetricsB cur = true) :
    exceptOk (check_compare_benchmark c cur) = true := by
  rcases niceVal_elim (niceVal_dictGet h c.metric) with hd | ⟨q, hd⟩
  · simp [check_compare_benchmark, hd, exceptOk]
  · simp [check_compare_benchmark, hd, formatPct, exceptOk]

/-- `_check_negative_screen` never raises. -/
theorem check_negative_screen_ok (c : Criterion) (cur : Metrics)
    (hist : Option (List Metrics)) :
    exceptOk (check_negative_screen c cur hist) = true := rfl

/-- `_check_rating` never raises (the `ValueError` of `list.index` is
caught). -/
theorem check_rating_ok (c : Criterion) (cur : Metrics) :
    exceptOk (check_rating c cur) = true := by
  cases hd : dictGet cur c.metric with
  | none => simp [check_rating, hd, exceptOk]
  | num q =>
    rcases h1 : c.rating_scale.findIdx? (fun x => pyEqb x (PyVal.num q)) with _ | vi <;>
      rcases h2 : c.rating_scale.findIdx? (fun x => pyEqb x c.threshold) with _ | ti <;>
        simp [check_rating, hd, h1, h2, exceptOk]
  | str s =>
    rcases h1 : c.rating_scale.findIdx? (fun x => pyEqb x (PyVal.str s)) with _ | vi <;>
      rcases h2 : c.rating_scale.findIdx? (fun x => pyEqb x c.threshold) with _ | ti <;>
        simp [check_rating, hd, h1, h2, exceptOk]
  | bool b =>
    rcases h1 : c.rating_scale.findIdx? (fun x => pyEqb x (PyVal.bool b)) with _ | vi <;>
      rcases h2 : c.rating_scale.findIdx? (fun x => pyEqb x c.threshold) with _ | ti <;>
        simp [check_rating, hd, h1, h2, exceptOk]

/-- Both branches of a pass/fail construction return. -/
theorem exceptOk_ite {α : Type} (P : Prop) [Decidable P] (a b : α) :
    exceptOk (if P then Except.ok a else Except.ok b) = true := by
  by_cases h : P <;> simp [h, exceptOk]

/-- `_check_historical_percentile` returns on well-typed inputs. -/
theorem check_historical_percentile_ok (c : Criterion) (cur : Metrics)
    (hist : Option (List Metrics)) (hc : niceMetricsB cur = true)
    (hh : niceHistB hist = true) :
    exceptOk (check_historical_percentile c cur hist) = true := by
  cases hist with
  | none => rfl
  | some l =>
    by_cases hg : (l.isEmpty || decide (l.length < c.years)) = true
    · simp [check_historical_percentile, hg, exceptOk]
    · have hsnaps : ∀ snap ∈ l.take c.years, niceSnapB snap = true := by
        have hall : ∀ snap ∈ l, niceSnapB snap = true := by
          simpa [niceHistB, List.all_eq_true] using hh
        exact fun s hs => hall s (List.take_subset _ _ hs)
      rcases niceVal_elim (niceVal_dictGet hc c.metric) with hd | ⟨q, hd⟩
      · simp [check_historical_percentile, hg, hd, exceptOk]
      · obtain ⟨qs, hqs, hpos⟩ := collectPositive_ok c.metric _ hsnaps
        by_cases hlen3 : qs.length < 3
        · simp [check_historical_percentile, hg, hd, hqs, hlen3, exceptOk]
        · obtain ⟨s1, hs1⟩ := format_value_ok (v := PyVal.num q) rfl c.metric
          simp only [check_historical_percentile, hg, hd, hqs, hlen3, hs1]
          simp only [Bool.false_eq_true, if_false, beq_iff_eq,
            List.getD_eq_getElem?_getD, gt_iff_lt]
          set X : ℚ := (if c.percentile_type = "median" then medianQ qs
            else if c.percentile_type = "mean" then meanQ qs
            else if c.percentile_type = "25th" then ((pySort qs)[qs.length / 4]?).getD 0
            else if c.percentile_type = "75th" then
              ((pySort qs)[3 * qs.length / 4]?).getD 0
            else medianQ qs) with hXd
          obtain ⟨s2, hs2⟩ := format_value_ok (v := PyVal.num X) rfl c.metric
          by_cases hX : 0 < X
          · simp [hX, pyDiv, PyVal.asNum, ne_of_gt hX, hs1, hs2, exceptOk]
          · simp [hX, hs1, hs2, exceptOk]

/-- `_check_volatility` returns on well-typed history (the unreachable
zero-mean branch aside, positive collected values force a positive
mean). -/
theorem check_volatility_ok (F : FloatOps) (c : Criterion)
    (hist : Option (List Metrics)) (hh : niceHistB hist = true) :
    exceptOk (check_volatility F c hist) = true := by
  cases hist with
  | none => rfl
  | some l =>
    by_cases hg : (l.isEmpty || decide (l.length < c.years)) = true
    · simp [check_volatility, hg, exceptOk]
    · have hsnaps : ∀ snap ∈ l.take c.years, niceSnapB snap = true := by
        have hall : ∀ snap ∈ l, niceSnapB snap = true := by
          simpa [niceHistB, List.all_eq_true] using hh
        exact fun s hs => hall s (List.take_subset _ _ hs)
      obtain ⟨qs, hqs, hpos⟩ := collectPositive_ok c.metric _ hsnaps
      by_cases hlen3 : qs.length < 3
      · simp [check_volatility, hg, hqs, hlen3, exceptOk]
      · have hne : qs ≠ [] := by
          intro h
          subst h
          simp at hlen3
        have hmean : ¬(meanQ qs = 0) := ne_of_gt (meanQ_pos hne hpos)
        obtain ⟨s1, hs1⟩ := format_value_ok (v := PyVal.num (meanQ qs)) rfl c.metric
        simp [check_volatility, hg, hqs, hlen3, hmean, hs1, exceptOk]

/-- `_check_valuation_expansion` returns on well-typed history given a
positive `years`. -/
theorem check_valuation_expansion_ok (F : FloatOps) (c : Criterion)
    (hist : Option (List Metrics)) (hh : niceHistB hist = true) (hy : 1 ≤ c.years) :
    exceptOk (check_valuation_expansion F c hist) = true := by
  cases hist with
  | none => rfl
  | some l =>
    by_cases hg : (l.isEmpty || decide (l.length < c.years)) = true
    · simp [check_valuation_expansion, hg, exceptOk]
    · have hsnaps : ∀ snap ∈ l, niceSnapB snap = true := by
        simpa [niceHistB, List.all_eq_true] using hh
      have hlen : c.years ≤ l.length := by
        simp only [Bool.or_eq_true, not_or, decide_eq_true_eq] at hg
        omega
      have h0 : ¬(c.years = 0) := by omega
      have hsmem : l.getD (c.years - 1) [] ∈ l := getD_mem l _ [] (by omega)
      have hemem : l.getD 0 [] ∈ l := getD_mem l 0 [] (by omega)
      have h1 := niceNN_dictGet (hsnaps _ hsmem) c.market_cap_metric
      have h2 := niceNN_dictGet (hsnaps _ hemem) c.market_cap_metric
      have h3 := niceNN_dictGet (hsnaps _ hsmem) c.profit_metric
      have h4 := niceNN_dictGet (hsnaps _ hemem) c.profit_metric
      simp only [List.getD_eq_getElem?_getD] at h1 h2 h3 h4
      rcases niceNNVal_elim h1 with ha | ⟨s1, ha, hann⟩
      · simp [check_valuation_expansion, hg, h0, ha, exceptOk]
      · rcases niceNNVal_elim h2 with hb | ⟨e1, hb, hbnn⟩
        · simp [check_valuation_expansion, hg, h0, ha, hb, exceptOk]
        · rcases niceNNVal_elim h3 with hcq | ⟨s2, hcq, hcnn⟩
          · simp [check_valuation_expansion, hg, h0, ha, hb, hcq, exceptOk]
          · rcases niceNNVal_elim h4 with hdq | ⟨e2, hdq, hdnn⟩
            · simp [check_valuation_expansion, hg, h0, ha, hb, hcq, hdq, exceptOk]
            · by_cases hC1 : s1 ≤ 0
              · simp [check_valuation_expansion, hg, h0, ha, hb, hcq, hdq, pyLe,
                  PyVal.asNum, hC1, exceptOk]
              · by_cases hC2 : s2 ≤ 0
                · simp [check_valuation_expansion, hg, h0, ha, hb, hcq, hdq, pyLe,
                    PyVal.asNum, hC1, hC2, exceptOk]
                · have hr1 : ¬(e1 / s1 < 0) :=
                    not_lt.mpr (div_nonneg hbnn (le_of_lt (lt_of_not_le hC1)))
                  have hr2 : ¬(e2 / s2 < 0) :=
                    not_lt.mpr (div_nonneg hdnn (le_of_lt (lt_of_not_le hC2)))
                  simp [check_valuation_expansion, hg, h0, ha, hb, hcq, hdq, pyLe,
                    PyVal.asNum, hC1, hC2, hr1, hr2]
                  exact exceptOk_ite _ _ _

/-- The criterion dispatcher returns on well-typed inputs and well-formed
criteria. -/
theorem check_criterion_ok (F : FloatOps) (c : Criterion) (cur : Metrics)
    (hist : Option (List Metrics)) (hcrit : niceCritB c = true)
    (hc : niceMetricsB cur = true) (hh : niceHistB hist = true) :
    exceptOk (check_criterion F c cur hist) = true := by
  by_cases h1 : (c.check_type == "simple") = true
  · simpa [check_criterion, h1] using check_simple_ok c cur hc
  by_cases h2 : (c.check_type == "consecutive_years") = true
  · simpa [check_criterion, h1, h2] using check_consecutive_years_ok c cur hist hh
  by_cases h3 : (c.check_type == "cagr") = true
  · have hx := beq_iff_eq.mp h3
    unfold niceCritB at hcrit
    rw [hx] at hcrit
    simp only [beq_self_eq_true, if_true, Bool.and_eq_true,
      decide_eq_true_eq] at hcrit
    obtain ⟨hy, hth⟩ := hcrit
    have ht : ∃ t, c.threshold = PyVal.num t := by
      revert hth
      cases c.threshold with
      | num q => exact fun _ => ⟨q, rfl⟩
      | none => intro hth; simp at hth
      | str s => intro hth; simp at hth
      | bool b => intro hth; simp at hth
    simpa [check_criterion, h1, h2, h3] using check_cagr_ok F c hist hh hy ht
  by_cases h4 : (c.check_type == "latest_quarter") = true
  · simpa [check_criterion, h1, h2, h3, h4, check_latest_quarter] using
      check_simple_ok c cur hc
  by_cases h5 : (c.check_type == "compare_benchmark") = true
  · simpa [check_criterion, h1, h2, h3, h4, h5] using
      check_compare_benchmark_ok c cur hc
  by_cases h6 : (c.check_type == "negative_screen") = true
  · simpa [check_criterion, h1, h2, h3, h4, h5, h6] using
      check_negative_screen_ok c cur hist
  by_cases h7 : (c.check_type == "rating") = true
  · simpa [check_criterion, h1, h2, h3, h4, h5, h6, h7] using check_rating_ok c cur
  by_cases h8 : (c.check_type == "historical_percentile") = true
  · simpa [check_criterion, h1, h2, h3, h4, h5, h6, h7, h8] using
      check_historical_percentile_ok c cur hist hc hh
  by_cases h9 : (c.check_type == "volatility") = true
  · simpa [check_criterion, h1, h2, h3, h4, h5, h6, h7, h8, h9] using
      check_volatility_ok F c hist hh
  by_cases h10 : (c.check_type == "valuation_expansion") = true
  · have hx := beq_iff_eq.mp h10
    unfold niceCritB at hcrit
    rw [hx] at hcrit
    simp at hcrit
    simpa [check_criterion, h1, h2, h3, h4, h5, h6, h7, h8, h9, h10] using
      check_valuation_expansion_ok F c hist hh hcrit
  simp [check_criterion, h1, h2, h3, h4, h5, h6, h7, h8, h9, h10, exceptOk]

/-- One category check returns, preserving name and criterion count. -/
theorem check_category_ok (F : FloatOps) (tol : Tolerance) (cat : ScreeningCategory)
    (cur : Metrics) (hist : Option (List Metrics))
    (hcrit : ∀ c ∈ cat.criteria, niceCritB c = true)
    (hc : niceMetricsB cur = true) (hh : niceHistB hist = true) :
    ∃ r, check_category F tol cat cur hist = Except.ok r ∧
      r.name = cat.name ∧ r.criteria_results.length = cat.criteria.length := by
  obtain ⟨rs, hrs, hlen⟩ := mapM_ok (fun c => check_criterion F c cur hist)
    cat.criteria (fun c hcm =>
      exceptOk_exists (check_criterion_ok F c cur hist (hcrit c hcm) hc hh))
  refine ⟨CategoryResult.mk cat.name cat.description cat.required
    (if cat.required then rs.all (fun r => r.passed) else check_with_tolerance rs tol)
    rs, ?_, rfl, hlen⟩
  unfold List.mapM at hrs
  simp [check_category, hrs]

/-- C1 amended: `analyze` always returns a complete result object (one
category score per configured category, one metric score per configured
metric) and never raises for data-level problems; `screen` returns a
complete result object when metric values are numeric or missing,
history values are nonnegative and the config is well formed — while odd
value types can raise out of `screen` for data-level problems (see the
counterexample). -/
theorem engines_return_complete_results :
    (∀ (cfg : ScoringConfig) (m : Metrics),
      (analyze cfg m).category_scores.map (fun cs => (cs.name, cs.metrics.length)) =
        cfg.categories.map (fun c => (c.name, c.metrics.length))) ∧
    (∀ (F : FloatOps) (cfg : ScreeningConfig) (cur : Metrics)
        (hist : Option (List Metrics)) (industry : Option String),
      niceConfigB cfg = true → niceMetricsB cur = true → niceHistB hist = true →
      ∃ r, screen F cfg cur hist industry = Except.ok r ∧
        r.category_results.map (fun cr => (cr.name, cr.criteria_results.length)) =
          cfg.categories.map (fun cat => (cat.name, cat.criteria.length))) := by
  constructor
  · intro cfg m
    simp [analyze, evaluate_category, List.map_map, Function.comp]
  · intro F cfg cur hist industry hcfg hcur hhist
    have hcats : ∀ cat ∈ cfg.categories, ∀ c ∈ cat.criteria, niceCritB c = true := by
      intro cat hcat c hcm
      exact List.all_eq_true.mp (List.all_eq_true.mp hcfg cat hcat) c hcm
    obtain ⟨rs, hrs, hmap⟩ := mapM_ok_map
      (fun cat => check_category F cfg.tolerance cat cur hist)
      (fun cr => (cr.name, cr.criteria_results.length))
      (fun cat => (cat.name, cat.criteria.length))
      cfg.categories
      (fun cat hcm => by
        obtain ⟨r, hr, hn, hl⟩ := check_category_ok F cfg.tolerance cat cur hist
          (hcats cat hcm) hcur hhist
        exact ⟨r, hr, by simp [hn, hl]⟩)
    refine ⟨ScreeningResult.mk cfg.name cfg.description
      (determine_result cfg.tolerance rs).1 (determine_result cfg.tolerance rs).2 rs
      ((rs.map (fun cr => cr.criteria_results.filter (fun x => !x.passed))).flatten)
      (generate_suggestions
        ((rs.map (fun cr => cr.criteria_results.filter (fun x => !x.passed))).flatten)),
      ?_, hmap⟩
    unfold List.mapM at hrs
    simp [screen, apply_industry_adjustments, hrs]

/-- Screening criterion of the C1 counterexample: a `simple` check on a
metric whose name contains `rate`. -/
def c1crit : Criterion :=
  Criterion.mk "现金比率下限" "现金比率为正" "simple" "cash_rate" (PyVal.num 0) ">" 5
    Option.none (Rat.divInt 1 40) [] "median" "market_cap" "net_profit"

/-- Screening config of the C1 counterexample. -/
def c1cfg : ScreeningConfig :=
  ScreeningConfig.mk "质量筛选" "演示配置"
    [ScreeningCategory.mk "流动性" "流动性检查" true [c1crit]] tol0 []

/-- C1 counterexample: a data-level problem — the string value `"high"`
for `cash_rate` reaches the percentage formatting of the criterion's
reason string and raises `ValueError` out of `screen` instead of
returning a result object. -/
theorem screen_raises_on_string_value :
    screen idFloatOps c1cfg [("cash_rate", PyVal.str "high")] Option.none Option.none
      = Except.error "ValueError: unknown format code % for str" := rfl

/-- Screening config of the C1 witness. -/
def c1okcfg : ScreeningConfig :=
  ScreeningConfig.mk "质量筛选" "演示配置"
    [ScreeningCategory.mk "盈利门槛" "盈利检查" true
      [Criterion.mk "ROE下限" "ROE为正" "simple" "roe" (PyVal.num 0) ">" 5
        Option.none (Rat.divInt 1 40) [] "median" "market_cap" "net_profit"]]
    tol0 []

/-- Witness for C1 (amended): on numeric metrics `screen` returns a
complete result mirroring the config's category and criterion counts. -/
theorem engines_return_complete_results_witness :
    niceConfigB c1okcfg = true ∧
    (∃ r, screen idFloatOps c1okcfg [("roe", PyVal.num 2)] Option.none Option.none
        = Except.ok r ∧
      r.category_results.map (fun cr => (cr.name, cr.criteria_results.length)) =
        c1okcfg.categories.map (fun cat => (cat.name, cat.criteria.length))) :=
  ⟨rfl, engines_return_complete_results.2 idFloatOps c1okcfg
    [("roe", PyVal.num 2)] Option.none Option.none rfl rfl rfl⟩
